import Mathlib

/-!
Verification development for the dispatch-and-routing pipeline of the
Disaster-Resource-Optimizer logistics agent
(`backend/agents/logistics_agent.py`).

The Python source is embedded shallowly: MongoDB documents become Lean
structures with `Option` fields for possibly-missing keys, pure helpers
become Lean functions, the external OSRM call is parameterised by its
outcome, and the polling loop body becomes an explicit fold over the
store.  Numbers stored in documents are rationals; the great-circle
distance is computed over the reals.
-/

namespace LogisticsAgent

/-! ## Configuration constants (from the source header) -/

def SEVERITY_THRESHOLD : ℚ := 0

def NUM_VEHICLES : ℕ := 1

/-- The ordered keyword → station-type rule table `NEED_TO_STATION_MAP`,
transcribed in source order. -/
def NEED_TO_STATION_MAP : List (String × String) :=
  [("fire suppression", "fire"),
   ("gas leak", "fire"),
   ("hazmat", "fire"),
   ("chemical", "fire"),
   ("fire", "fire"),
   ("burning", "fire"),
   ("smoke", "fire"),
   ("blaze", "fire"),
   ("need police", "police"),
   ("call police", "police"),
   ("stampede", "police"),
   ("panic", "police"),
   ("crowd", "police"),
   ("riot", "police"),
   ("police", "police"),
   ("security", "police"),
   ("crime", "police"),
   ("theft", "police"),
   ("robbery", "police"),
   ("violence", "police"),
   ("law enforcement", "police"),
   ("need ambulance", "hospital"),
   ("medical", "hospital"),
   ("health", "hospital"),
   ("injury", "hospital"),
   ("injured", "hospital"),
   ("sick", "hospital"),
   ("ambulance", "hospital"),
   ("bleeding", "hospital"),
   ("unconscious", "hospital"),
   ("rescue", "rescue"),
   ("trapped", "rescue"),
   ("stuck", "rescue"),
   ("flood", "rescue"),
   ("earthquake", "rescue"),
   ("collapse", "rescue"),
   ("evacuation", "rescue"),
   ("water", "rescue"),
   ("food", "rescue"),
   ("disaster", "rescue"),
   ("other", "rescue")]

/-! ## Document model

Each MongoDB document field that the agent reads through `.get` (and so
may be absent) is an `Option`; numeric values stored in documents are
rationals. -/

/-- The `location` sub-document of a report (`lat` / `lng` keys). -/
structure Loc where
  lat : Option ℚ
  lng : Option ℚ
  deriving Repr, DecidableEq

/-- The `oracleData` sub-document of a report. -/
structure OracleData where
  severity : Option ℚ
  needs : List String
  deriving Repr, DecidableEq

/-- The `sentinelData` sub-document of a report. -/
structure SentinelData where
  tag : Option String
  deriving Repr, DecidableEq

/-- A `rerouted_to_station` sub-document (manual override). -/
structure Reroute where
  type : Option String
  name : Option String
  lat : Option ℚ
  lon : Option ℚ
  deriving Repr, DecidableEq

/-- The station-dispatch summary written into missions and items
(`station_info` in the source). -/
structure StationInfo where
  type : String
  name : Option String
  lat : Option ℚ
  lon : Option ℚ
  deriving Repr, DecidableEq

/-- A document of the `reports` collection, restricted to the fields the
logistics agent reads or writes.  ObjectIds are modelled as naturals. -/
structure Report where
  _id : ℕ
  reportId : Option String
  location : Option Loc
  text : Option String
  status : Option String
  emergencyStatus : Option String
  dispatch_status : Option String
  oracleData : Option OracleData
  sentinelData : Option SentinelData
  rerouted_to_station : Option Reroute
  mission_id : Option ℕ
  assigned_at : Option ℕ
  assigned_station : Option StationInfo
  deriving Repr, DecidableEq

/-- The `coordinates` sub-document of a need (`lat` / `lon` keys). -/
structure NeedCoords where
  lat : Option ℚ
  lon : Option ℚ
  deriving Repr, DecidableEq

/-- The `triageData` sub-document of a need. -/
structure TriageData where
  needType : Option String
  details : Option String
  deriving Repr, DecidableEq

/-- A document of the `needs` collection, restricted to the fields the
logistics agent reads or writes. -/
structure Need where
  _id : ℕ
  coordinates : Option NeedCoords
  rawMessage : Option String
  triageData : Option TriageData
  status : Option String
  emergencyStatus : Option String
  dispatch_status : Option String
  rerouted_to_station : Option Reroute
  mission_id : Option ℕ
  assigned_at : Option ℕ
  assigned_station : Option StationInfo
  deriving Repr, DecidableEq

/-! ## Classifier (`determine_station_type`, `determine_station_type_for_need`) -/

/-- Python's `str.lower()`, applied characterwise. -/
def pyLower (s : String) : String :=
  String.mk (s.data.map Char.toLower)

/-- Python's `needle in hay` substring test, on the character lists. -/
def strContains (hay needle : String) : Bool :=
  decide (needle.toList <:+: hay.toList)

/-- Truthiness of `rerouted and rerouted.get('type')`: the override wins
only when present with a non-empty `type`. -/
def overrideType (rr : Option Reroute) : Option String :=
  match rr with
  | none => none
  | some r =>
    match r.type with
    | none => none
    | some t => if t = "" then none else some t

/-- One pass of `for keyword, station_type in NEED_TO_STATION_MAP: if keyword
in text` over a single text source. -/
def firstRuleMatch (text : String) : Option String :=
  (NEED_TO_STATION_MAP.find? (fun p => strContains text p.1)).map (fun p => p.2)

/-- The direct `needType` table of `determine_station_type_for_need`. -/
def need_type_map : List (String × String) :=
  [("medical", "hospital"),
   ("rescue", "rescue"),
   ("water", "rescue"),
   ("food", "rescue"),
   ("other", "rescue")]

/-- Embedding of `determine_station_type_for_need`: manual reroute wins;
else keyword scan over the concatenated lowercased need-type, raw message
and details; else the direct `needType` table; else `"rescue"`. -/
def determine_station_type_for_need (need : Need) : String :=
  match overrideType need.rerouted_to_station with
  | some t => t
  | none =>
    let need_type := pyLower ((need.triageData.bind (fun t => t.needType)).getD "")
    let raw_message := pyLower (need.rawMessage.getD "")
    let details := pyLower ((need.triageData.bind (fun t => t.details)).getD "")
    let combined_text := need_type ++ " " ++ raw_message ++ " " ++ details
    match firstRuleMatch combined_text with
    | some st => st
    | none =>
      match (need_type_map.find? (fun p => p.1 = need_type)).map (fun p => p.2) with
      | some st => st
      | none => "rescue"

/-- Embedding of `determine_station_type`: manual reroute wins; else the
rule table is scanned against the lowercased free text, then the
lowercased AI tag, then each entry of the `needs` array; else `"rescue"`. -/
def determine_station_type (report : Report) : String :=
  match overrideType report.rerouted_to_station with
  | some t => t
  | none =>
    let needs := (report.oracleData.map (fun o => o.needs)).getD []
    let tag := pyLower ((report.sentinelData.bind (fun s => s.tag)).getD "")
    let text := pyLower (report.text.getD "")
    match firstRuleMatch text with
    | some st => st
    | none =>
      match firstRuleMatch tag with
      | some st => st
      | none =>
        match needs.findSome? (fun n => firstRuleMatch (pyLower n)) with
        | some st => st
        | none => "rescue"

/-- The closed category set of the spec. -/
def stationCategories : List String := ["police", "hospital", "fire", "rescue"]

/-! ## Geospatial distance (`haversine`) -/

/-- Python's `math.radians`. -/
noncomputable def radians (x : ℝ) : ℝ := x * Real.pi / 180

/-- Python's `math.atan2`, by case analysis on the quadrant. -/
noncomputable def atan2 (y x : ℝ) : ℝ :=
  if 0 < x then Real.arctan (y / x)
  else if x < 0 then
    (if 0 ≤ y then Real.arctan (y / x) + Real.pi else Real.arctan (y / x) - Real.pi)
  else
    (if 0 < y then Real.pi / 2 else if y < 0 then -(Real.pi / 2) else 0)

/-- Embedding of `haversine`: great-circle distance in metres between two
points given in degrees. -/
noncomputable def haversine (lat1 lon1 lat2 lon2 : ℝ) : ℝ :=
  let R : ℝ := 6371000
  let phi1 := radians lat1
  let phi2 := radians lat2
  let delta_phi := radians (lat2 - lat1)
  let delta_lambda := radians (lon2 - lon1)
  let a := Real.sin (delta_phi / 2) ^ 2 +
    Real.cos phi1 * Real.cos phi2 * Real.sin (delta_lambda / 2) ^ 2
  let c := 2 * atan2 (Real.sqrt a) (Real.sqrt (1 - a))
  R * c

/-! ## Station directory (`get_nearest_station`) -/

/-- A station as produced by `get_registered_stations` (coordinates may be
null in the registry). -/
structure Station where
  name : String
  lat : Option ℚ
  lon : Option ℚ
  id : Option String
  stationId : Option String
  deriving Repr, DecidableEq

/-- The fixed default depot `DEFAULT_DEPOT`. -/
def DEFAULT_DEPOT : Station :=
  { name := "Command Center - Pune", lat := some 18.521, lon := some 73.854,
    id := none, stationId := none }

/-- The station cache contents: station type → stations of that type, as
returned by `get_registered_stations`. -/
def RegisteredStations : Type := List (String × List Station)

/-- Python's `registered_stations.get(key, [])` on the type-grouped map. -/
def dictGetStations (m : RegisteredStations) (k : String) : List Station :=
  ((List.find? (fun p => p.1 = k) m).map (fun p => p.2)).getD []

/-- The `fallback_types` table of `get_nearest_station`
(`dict.get(station_type, [])` on a literal dict). -/
def fallback_types (station_type : String) : List String :=
  if station_type = "hospital" then ["ambulance", "rescue"]
  else if station_type = "ambulance" then ["hospital", "rescue"]
  else if station_type = "fire" then ["rescue"]
  else if station_type = "police" then ["rescue"]
  else if station_type = "rescue" then ["fire", "hospital", "police"]
  else []

/-- The fallback loop of `get_nearest_station`: the station list of the
first fallback type with a non-empty list, else `[]`. -/
def fallbackStations (m : RegisteredStations) (station_type : String) : List Station :=
  match (fallback_types station_type).find? (fun fb => !(dictGetStations m fb).isEmpty) with
  | some fb => dictGetStations m fb
  | none => []

/-- The station list actually scanned by `get_nearest_station`: the
requested type's stations, or the fallback list when those are empty. -/
def resolvedStations (m : RegisteredStations) (station_type : String) : List Station :=
  let stations := dictGetStations m station_type
  if stations.isEmpty then fallbackStations m station_type else stations

/-- One iteration of the nearest-station scan: stations with a null
coordinate are skipped; a strictly smaller distance replaces the current
best (`None` plays the role of `min_distance = inf`). -/
noncomputable def scanStep (report_lat report_lng : ℚ) (acc : Option (Station × ℝ))
    (station : Station) : Option (Station × ℝ) :=
  match station.lat, station.lon with
  | some slat, some slon =>
    let dist := haversine (report_lat : ℝ) (report_lng : ℝ) (slat : ℝ) (slon : ℝ)
    match acc with
    | none => some (station, dist)
    | some (n, m) => if dist < m then some (station, dist) else some (n, m)
  | _, _ => acc

/-- Embedding of `get_nearest_station`, with the cache contents passed in
place of the database handle. -/
noncomputable def get_nearest_station (m : RegisteredStations)
    (report_lat report_lng : ℚ) (station_type : String) : Station :=
  if (resolvedStations m station_type).isEmpty then DEFAULT_DEPOT
  else
    match (resolvedStations m station_type).foldl (scanStep report_lat report_lng) none with
    | none => DEFAULT_DEPOT
    | some (n, _) => n

/-! ## Route provider (`get_osrm_route`, `get_route_with_fallback`) -/

/-- A parsed OSRM route: geometry as coordinate pairs, distance in metres,
duration in seconds. -/
structure OsrmData where
  geometry : List (ℚ × ℚ)
  distance : ℚ
  duration : ℚ
  deriving Repr, DecidableEq

/-- The possible outcomes of the HTTP call inside `get_osrm_route`: the
three exception paths, or a decoded JSON body with a status code and a
route list (whose geometries are `(lon, lat)` pairs). -/
inductive OsrmOutcome where
  | timeout
  | requestError
  | parseError
  | response (code : String) (routes : List OsrmData)
  deriving Repr, DecidableEq

/-- Embedding of `get_osrm_route`: `none` on fewer than two waypoints, on
any exception, on a non-`Ok` code or an empty route list; else the first
route with its geometry flipped from `(lon, lat)` to `(lat, lon)`. -/
def get_osrm_route (waypoints : List (ℚ × ℚ)) (outcome : OsrmOutcome) : Option OsrmData :=
  if waypoints.length < 2 then none
  else
    match outcome with
    | .timeout => none
    | .requestError => none
    | .parseError => none
    | .response code routes =>
      if code ≠ "Ok" then none
      else
        match routes with
        | [] => none
        | r :: _ =>
          some { geometry := r.geometry.map (fun c => (c.2, c.1)),
                 distance := r.distance, duration := r.duration }

/-- The route dictionary produced by `get_route_with_fallback`. -/
structure RouteDict where
  vehicle_id : ℕ
  route : List (ℚ × ℚ)
  total_distance : ℝ
  duration : ℝ
  station_type : String
  station_name : Option String
  is_road_snapped : Bool

/-- Embedding of `get_route_with_fallback`: the OSRM result when the call
succeeds, else the straight-line fallback at an assumed 13.89 m/s. -/
noncomputable def get_route_with_fallback (origin destination : ℚ × ℚ)
    (station_type : String) (station_name : Option String)
    (outcome : OsrmOutcome) : RouteDict :=
  let waypoints := [origin, destination]
  match get_osrm_route waypoints outcome with
  | some r =>
    { vehicle_id := 0, route := r.geometry, total_distance := (r.distance : ℝ),
      duration := (r.duration : ℝ), station_type := station_type,
      station_name := station_name, is_road_snapped := true }
  | none =>
    let distance := haversine (origin.1 : ℝ) (origin.2 : ℝ) (destination.1 : ℝ) (destination.2 : ℝ)
    { vehicle_id := 0, route := [origin, destination], total_distance := distance,
      duration := distance / 13.89, station_type := station_type,
      station_name := station_name, is_road_snapped := false }

/-! ## Eligibility queries (`get_critical_reports`, `get_verified_needs`) -/

/-- The Mongo filter of `get_critical_reports`, clause by clause:
`oracleData.severity` present and above the threshold, `status` in the
analyzed set, `emergencyStatus` absent or not `rejected` (`$nin`), and
`dispatch_status` absent, `Unassigned` or `Pending`. -/
def matchesCriticalQuery (r : Report) : Bool :=
  (match r.oracleData.bind (fun o => o.severity) with
   | some s => decide (SEVERITY_THRESHOLD < s)
   | none => false) &&
  (match r.status with
   | some s => ["Analyzed_Full", "Analyzed"].contains s
   | none => false) &&
  (match r.emergencyStatus with
   | some e => !(["rejected"].contains e)
   | none => true) &&
  decide (r.dispatch_status = none ∨ r.dispatch_status = some "Unassigned" ∨
    r.dispatch_status = some "Pending")

/-- Embedding of `get_critical_reports` over the collection contents. -/
def get_critical_reports (reports : List Report) : List Report :=
  reports.filter matchesCriticalQuery

/-- The Mongo filter of `get_verified_needs`: `status` equal to
`Verified`, `emergencyStatus` not `rejected`, `dispatch_status` absent or
`Unassigned`/`Pending`, and both coordinate fields present. -/
def matchesVerifiedNeedsQuery (n : Need) : Bool :=
  decide (n.status = some "Verified") &&
  (match n.emergencyStatus with
   | some e => !(["rejected"].contains e)
   | none => true) &&
  decide (n.dispatch_status = none ∨ n.dispatch_status = some "Unassigned" ∨
    n.dispatch_status = some "Pending") &&
  (n.coordinates.bind (fun c => c.lat)).isSome &&
  (n.coordinates.bind (fun c => c.lon)).isSome

/-- Embedding of `get_verified_needs` over the collection contents. -/
def get_verified_needs (needs : List Need) : List Need :=
  needs.filter matchesVerifiedNeedsQuery

/-! ## Mission persistence (`save_mission`) and the report store -/

/-- A document of the `missions` collection (for report missions the
`report_ids` key is present, for need missions `need_ids` and `source`). -/
structure Mission where
  routes : List RouteDict
  timestamp : ℕ
  report_ids : Option (List ℕ)
  need_ids : Option (List ℕ)
  source : Option String
  status : String
  num_vehicles : ℕ
  station : Option StationInfo

/-- The shared store as the coordinator sees it: the `reports`, `needs`
and `missions` collections. -/
structure Store where
  reports : List Report
  needs : List Need
  missions : List Mission

/-- First half of `save_mission`: the `insert_one` into `missions`.  The
generated mission id is modelled as the insertion index. -/
def insert_mission (now : ℕ) (db : Store) (routes : List RouteDict)
    (report_ids : List ℕ) (station_info : Option StationInfo) : Store × ℕ :=
  let mission : Mission :=
    { routes := routes, timestamp := now, report_ids := some report_ids,
      need_ids := none, source := none, status := "Active",
      num_vehicles := NUM_VEHICLES, station := station_info }
  let mission_id := db.missions.length
  ({ reports := db.reports, needs := db.needs,
     missions := db.missions ++ [mission] }, mission_id)

/-- The `$set` document of the `update_many` inside `save_mission`,
applied to one report: reports whose id was processed get
`dispatch_status = Assigned` plus the mission-reference and
assigned-station fields; others are left alone. -/
def applyAssign (now mission_id : ℕ) (station_info : Option StationInfo)
    (report_ids : List ℕ) (r : Report) : Report :=
  if report_ids.contains r._id then
    { r with dispatch_status := some "Assigned", mission_id := some mission_id,
             assigned_at := some now, assigned_station := station_info }
  else r

/-- Second half of `save_mission`: the `update_many` over the reports
collection. -/
def mark_assigned (now : ℕ) (db : Store) (report_ids : List ℕ) (mission_id : ℕ)
    (station_info : Option StationInfo) : Store :=
  { reports := db.reports.map (applyAssign now mission_id station_info report_ids),
    needs := db.needs, missions := db.missions }

/-- Embedding of `save_mission`: the insert followed by the update. -/
def save_mission (now : ℕ) (db : Store) (routes : List RouteDict)
    (report_ids : List ℕ) (station_info : Option StationInfo) : Store × ℕ :=
  (mark_assigned now (insert_mission now db routes report_ids station_info).1 report_ids
    (insert_mission now db routes report_ids station_info).2 station_info,
   (insert_mission now db routes report_ids station_info).2)

/-! ## The per-report loop body and one polling cycle -/

/-- Python truthiness of an optional number (`None` and `0` are falsy), as
used on `rerouted.get('lat')`. -/
def truthyQ (v : Option ℚ) : Bool :=
  match v with
  | none => false
  | some x => decide (x ≠ 0)

/-- The station value flowing through the loop body: built either from a
manual reroute (whose fields may be absent) or from a directory station. -/
structure DispatchStation where
  name : Option String
  lat : Option ℚ
  lon : Option ℚ
  deriving Repr, DecidableEq

/-- A directory station viewed as a loop station value. -/
def stationToDispatch (s : Station) : DispatchStation :=
  { name := some s.name, lat := s.lat, lon := s.lon }

/-- The body of `for report in reports` inside `run_logistics_agent`,
up to the station and route computation (shared by the sequential cycle
and the interleaved model).  Returns `none` when the item is skipped or
its exception is caught (`location` missing, `lat` missing, or the
`KeyError` on a missing `lng`); otherwise the routes list, the processed
id and the station summary that `save_mission` receives. -/
noncomputable def reportDispatchData (regs : RegisteredStations)
    (osrm : ℕ → OsrmOutcome) (report : Report) :
    Option (List RouteDict × List ℕ × StationInfo) :=
  match report.location with
  | none => none
  | some loc =>
    match loc.lat with
    | none => none
    | some report_lat =>
      match loc.lng with
      | none => none
      | some report_lng =>
        let station_type := determine_station_type report
        let station : DispatchStation :=
          match report.rerouted_to_station with
          | some rr =>
            if truthyQ rr.lat && truthyQ rr.lon then
              { name := rr.name, lat := rr.lat, lon := rr.lon }
            else stationToDispatch (get_nearest_station regs report_lat report_lng station_type)
          | none => stationToDispatch (get_nearest_station regs report_lat report_lng station_type)
        let depot_location : ℚ × ℚ := (station.lat.getD 0, station.lon.getD 0)
        let report_location : ℚ × ℚ := (report_lat, report_lng)
        let route := get_route_with_fallback depot_location report_location
          station_type station.name (osrm report._id)
        let station_info : StationInfo :=
          { type := station_type, name := station.name, lat := station.lat, lon := station.lon }
        some ([route], [report._id], station_info)

/-- One full per-report iteration of the sequential loop: compute the
dispatch data and persist via `save_mission`; skipped or failing items
leave the store untouched. -/
noncomputable def processReport (regs : RegisteredStations) (osrm : ℕ → OsrmOutcome)
    (now : ℕ) (db : Store) (report : Report) : Store :=
  match reportDispatchData regs osrm report with
  | none => db
  | some (routes, report_ids, station_info) =>
    (save_mission now db routes report_ids (some station_info)).1

/-- One error-free polling cycle over the reports collection: query the
eligible reports once, then process each in order. -/
noncomputable def runReportCycle (regs : RegisteredStations) (osrm : ℕ → OsrmOutcome)
    (now : ℕ) (db : Store) : Store :=
  (get_critical_reports db.reports).foldl (processReport regs osrm now) db

/-! ## Mission persistence for needs (`save_need_mission`) and the needs loop -/

/-- The `$set` document of the `update_many` inside `save_need_mission`,
applied to one need: processed needs get `dispatch_status = Assigned`,
`status = InProgress` and the mission-reference and assigned-station
fields. -/
def applyAssignNeed (now mission_id : ℕ) (station_info : Option StationInfo)
    (need_ids : List ℕ) (n : Need) : Need :=
  if need_ids.contains n._id then
    { n with dispatch_status := some "Assigned", status := some "InProgress",
             mission_id := some mission_id, assigned_at := some now,
             assigned_station := station_info }
  else n

/-- First half of `save_need_mission`: the `insert_one` of a mission
carrying `need_ids` and `source = verified_need`. -/
def insert_need_mission (now : ℕ) (db : Store) (routes : List RouteDict)
    (need_ids : List ℕ) (station_info : Option StationInfo) : Store × ℕ :=
  let mission : Mission :=
    { routes := routes, timestamp := now, report_ids := none,
      need_ids := some need_ids, source := some "verified_need", status := "Active",
      num_vehicles := NUM_VEHICLES, station := station_info }
  let mission_id := db.missions.length
  ({ reports := db.reports, needs := db.needs,
     missions := db.missions ++ [mission] }, mission_id)

/-- Second half of `save_need_mission`: the `update_many` over the needs
collection. -/
def mark_needs_assigned (now : ℕ) (db : Store) (need_ids : List ℕ) (mission_id : ℕ)
    (station_info : Option StationInfo) : Store :=
  { reports := db.reports,
    needs := db.needs.map (applyAssignNeed now mission_id station_info need_ids),
    missions := db.missions }

/-- Embedding of `save_need_mission`: the insert followed by the update. -/
def save_need_mission (now : ℕ) (db : Store) (routes : List RouteDict)
    (need_ids : List ℕ) (station_info : Option StationInfo) : Store × ℕ :=
  (mark_needs_assigned now (insert_need_mission now db routes need_ids station_info).1
    need_ids (insert_need_mission now db routes need_ids station_info).2 station_info,
   (insert_need_mission now db routes need_ids station_info).2)

/-- The body of `for need in verified_needs` up to the station and route
computation.  The guard is Python truthiness on `coords.get('lat')` and
`coords.get('lon')`: a missing `coordinates` sub-document, a missing
field, or a zero coordinate all skip the need. -/
noncomputable def needDispatchData (regs : RegisteredStations)
    (osrm : ℕ → OsrmOutcome) (need : Need) :
    Option (List RouteDict × List ℕ × StationInfo) :=
  match need.coordinates.bind (fun c => c.lat), need.coordinates.bind (fun c => c.lon) with
  | some need_lat, some need_lon =>
    if need_lat = 0 ∨ need_lon = 0 then none
    else
      let station_type := determine_station_type_for_need need
      let station : DispatchStation :=
        match need.rerouted_to_station with
        | some rr =>
          if truthyQ rr.lat && truthyQ rr.lon then
            { name := rr.name, lat := rr.lat, lon := rr.lon }
          else stationToDispatch (get_nearest_station regs need_lat need_lon station_type)
        | none => stationToDispatch (get_nearest_station regs need_lat need_lon station_type)
      let depot_location : ℚ × ℚ := (station.lat.getD 0, station.lon.getD 0)
      let need_location : ℚ × ℚ := (need_lat, need_lon)
      let route := get_route_with_fallback depot_location need_location
        station_type station.name (osrm need._id)
      let station_info : StationInfo :=
        { type := station_type, name := station.name, lat := station.lat, lon := station.lon }
      some ([route], [need._id], station_info)
  | _, _ => none

/-- One full per-need iteration of the sequential loop. -/
noncomputable def processNeed (regs : RegisteredStations) (osrm : ℕ → OsrmOutcome)
    (now : ℕ) (db : Store) (need : Need) : Store :=
  match needDispatchData regs osrm need with
  | none => db
  | some (routes, need_ids, station_info) =>
    (save_need_mission now db routes need_ids (some station_info)).1

/-- The needs half of one polling cycle: query the verified needs once,
then process each in order. -/
noncomputable def runNeedCycle (regs : RegisteredStations) (osrm : ℕ → OsrmOutcome)
    (now : ℕ) (db : Store) : Store :=
  (get_verified_needs db.needs).foldl (processNeed regs osrm now) db

/-- One full error-free polling cycle: the reports loop followed by the
verified-needs loop, as in `run_logistics_agent`. -/
noncomputable def runCycle (regs : RegisteredStations) (osrm : ℕ → OsrmOutcome)
    (now : ℕ) (db : Store) : Store :=
  runNeedCycle regs osrm now (runReportCycle regs osrm now db)

/-! ## Observations on the store -/

/-- Number of mission documents referencing a given report id. -/
def missionCount (db : Store) (rid : ℕ) : ℕ :=
  db.missions.countP (fun m => (m.report_ids.getD []).contains rid)

/-- The first report document with a given id. -/
def findReport (db : Store) (rid : ℕ) : Option Report :=
  db.reports.find? (fun r => r._id = rid)

/-- Number of mission documents referencing a given need id. -/
def needMissionCount (db : Store) (nid : ℕ) : ℕ :=
  db.missions.countP (fun m => (m.need_ids.getD []).contains nid)

/-- The first need document with a given id. -/
def findNeed (db : Store) (nid : ℕ) : Option Need :=
  db.needs.find? (fun n => n._id = nid)

/-! ## Two concurrent coordinator instances

The store is the only shared state; its atomic units are the individual
MongoDB operations the agent issues: the eligibility `find`, the mission
`insert_one` and the status `update_many`.  Everything between two store
operations (classification, the station scan, the outbound OSRM call) is
local to one instance, so an instance is modelled as a program counter
advancing one store operation at a time over its private snapshot of the
query result. -/

/-- Control state of one coordinator instance running one cycle. -/
inductive AgentState where
  /-- About to issue the eligibility query. -/
  | ready
  /-- Holds the query-result snapshot still to process; the next store
  operation is the mission insert for the head item (or a skip). -/
  | running (pending : List Report)
  /-- Inserted mission `mid` for `current`; the next store operation is
  the `update_many` flipping it to Assigned with `station_info`. -/
  | flipping (current : Report) (rest : List Report) (mid : ℕ) (station_info : StationInfo)
  /-- Cycle finished. -/
  | stopped

/-- One atomic store operation of one instance.  The mission insert
happens after the outbound OSRM call and with no prior compare-and-set:
between the query and the insert the store may change under the
instance's feet. -/
noncomputable def agentStep (regs : RegisteredStations) (osrm : ℕ → OsrmOutcome)
    (now : ℕ) : AgentState × Store → AgentState × Store
  | (.ready, db) => (.running (get_critical_reports db.reports), db)
  | (.running [], db) => (.stopped, db)
  | (.running (r :: rest), db) =>
    match reportDispatchData regs osrm r with
    | none => (.running rest, db)
    | some (routes, report_ids, station_info) =>
      let (db', mid) := insert_mission now db routes report_ids (some station_info)
      (.flipping r rest mid station_info, db')
  | (.flipping r rest mid station_info, db) =>
    (.running rest, mark_assigned now db [r._id] mid (some station_info))
  | (.stopped, db) => (.stopped, db)

/-- Two instances `A` and `B` over the shared store; a schedule entry
`true` lets `A` take its next store operation, `false` lets `B`. -/
noncomputable def sysStep (regs : RegisteredStations) (osrm : ℕ → OsrmOutcome) (now : ℕ)
    (s : AgentState × AgentState × Store) (who : Bool) : AgentState × AgentState × Store :=
  match who, s with
  | true, (a, b, db) =>
    let (a', db') := agentStep regs osrm now (a, db)
    (a', b, db')
  | false, (a, b, db) =>
    let (b', db') := agentStep regs osrm now (b, db)
    (a, b', db')

/-- Run a schedule of interleaved store operations from an initial
configuration. -/
noncomputable def runSchedule (regs : RegisteredStations) (osrm : ℕ → OsrmOutcome) (now : ℕ)
    (sched : List Bool) (s : AgentState × AgentState × Store) : AgentState × AgentState × Store :=
  sched.foldl (sysStep regs osrm now) s

/-! ## Spec-side reference definitions (for refinement comparisons) -/

/-- The classifier contract as the spec words it: scan an ordered list of
(already lowercased) text sources, first rule match wins, default
`rescue`.  Reference point for comparing `determine_station_type`. -/
def classifierSpec (sources : List String) : String :=
  (sources.findSome? firstRuleMatch).getD "rescue"

/-- The report-eligibility filter as the claim words it: `status` in the
analyzed set, not rejected, and `dispatch_status` missing, `Unassigned`
or `Pending` — and nothing else.  Reference point for comparing
`matchesCriticalQuery`. -/
def reportEligibleSpec (r : Report) : Bool :=
  decide (r.status = some "Analyzed_Full" ∨ r.status = some "Analyzed") &&
  decide (r.emergencyStatus ≠ some "rejected") &&
  decide (r.dispatch_status = none ∨ r.dispatch_status = some "Unassigned" ∨
    r.dispatch_status = some "Pending")

/-- The need-eligibility filter as the claim words it: verified, not
rejected, and `dispatch_status` missing, `Unassigned` or `Pending` — and
nothing else.  Reference point for comparing `matchesVerifiedNeedsQuery`. -/
def needEligibleSpec (n : Need) : Bool :=
  decide (n.status = some "Verified") &&
  decide (n.emergencyStatus ≠ some "rejected") &&
  decide (n.dispatch_status = none ∨ n.dispatch_status = some "Unassigned" ∨
    n.dispatch_status = some "Pending")

/-- The extra clause of the reports query beyond the claim's filter:
`oracleData.severity` present and above `SEVERITY_THRESHOLD`. -/
def severityClause (r : Report) : Bool :=
  match r.oracleData.bind (fun o => o.severity) with
  | some s => decide (SEVERITY_THRESHOLD < s)
  | none => false

/-- The extra clause of the needs query beyond the claim's filter: both
coordinate fields present. -/
def needCoordsClause (n : Need) : Bool :=
  (n.coordinates.bind (fun c => c.lat)).isSome &&
  (n.coordinates.bind (fun c => c.lon)).isSome

/-- The failure cases of the routing call enumerated by the spec: timeout,
transport error, malformed response, or a body without success code or
routes. -/
def isOsrmFailure : OsrmOutcome → Bool
  | .timeout => true
  | .requestError => true
  | .parseError => true
  | .response code routes => decide (code ≠ "Ok") || routes.isEmpty

/-! ## Concrete example documents and stores -/

/-- A report with every optional field absent. -/
def emptyReport : Report :=
  { _id := 1, reportId := none, location := none, text := none, status := none,
    emergencyStatus := none, dispatch_status := none, oracleData := none,
    sentinelData := none, rerouted_to_station := none, mission_id := none,
    assigned_at := none, assigned_station := none }

/-- A need with every optional field absent. -/
def emptyNeed : Need :=
  { _id := 2, coordinates := none, rawMessage := none, triageData := none,
    status := none, emergencyStatus := none, dispatch_status := none,
    rerouted_to_station := none, mission_id := none, assigned_at := none,
    assigned_station := none }

/-- A report manually rerouted to a station of type `ambulance` — a value
outside the four-category set. -/
def overrideEscapeReport : Report :=
  { emptyReport with
    rerouted_to_station :=
      some { type := some "ambulance", name := some "Ambulance 7",
             lat := some 18, lon := some 73 } }

/-- The pinned-regression report: free text mentioning both a stampede and
medical help, with an AI-inferred `Medical` need. -/
def stampedeReport : Report :=
  { emptyReport with
    text := some "Stampede at the rally, people need medical attention",
    oracleData := some { severity := some 9, needs := ["Medical"] } }

/-- A report that satisfies every condition of the claim's eligibility
filter but has no `oracleData.severity`. -/
def severityGapReport : Report :=
  { emptyReport with _id := 11, status := some "Analyzed" }

/-- An ambulance station with valid coordinates. -/
def ambulanceStation : Station :=
  { name := "Ambulance Post", lat := some 18, lon := some 73, id := none,
    stationId := none }

/-- A registry with ambulance stations only. -/
def ambulanceOnlyRegistry : RegisteredStations := [("ambulance", [ambulanceStation])]

/-- A fire station whose registry document has no coordinates. -/
def coordlessFireStation : Station :=
  { name := "Fire HQ", lat := none, lon := none, id := none, stationId := none }

/-- A registry whose only fire station lacks coordinates. -/
def coordlessFireRegistry : RegisteredStations := [("fire", [coordlessFireStation])]

/-- An eligible, well-formed report (valid location, analyzed, unassigned,
high severity). -/
def raceReport : Report :=
  { emptyReport with
    _id := 7,
    location := some { lat := some (37/2), lng := some (369/5) },
    text := some "fire", status := some "Analyzed",
    dispatch_status := some "Unassigned",
    oracleData := some { severity := some 9, needs := [] } }

/-- A store holding just `raceReport` and no missions. -/
def raceStore : Store := { reports := [raceReport], needs := [], missions := [] }

/-- The racing schedule: both instances issue their eligibility query
before either writes, then each inserts its mission and flips the status. -/
def raceSchedule : List Bool := [true, false, true, true, false, false]

/-- An eligible report whose `location` has a `lat` but no `lng`: reading
`report['location']['lng']` raises `KeyError`, which the per-item handler
swallows. -/
def malformedReport : Report :=
  { emptyReport with
    _id := 9,
    location := some { lat := some 18, lng := none },
    status := some "Analyzed", dispatch_status := some "Unassigned",
    oracleData := some { severity := some 9, needs := [] } }

/-- A store holding just the malformed report. -/
def malformedStore : Store :=
  { reports := [malformedReport], needs := [], missions := [] }

/-- An eligible, well-formed report distinct from `malformedReport`. -/
def healthyReport : Report :=
  { emptyReport with
    _id := 8,
    location := some { lat := some 18, lng := some 73 },
    text := some "trapped", status := some "Analyzed_Full",
    dispatch_status := some "Pending",
    oracleData := some { severity := some 7, needs := [] } }

/-- A verified, unassigned need sitting exactly on the equator: its
latitude 0 is a present, valid coordinate, but falsy to Python. -/
def zeroLatNeed : Need :=
  { emptyNeed with
    _id := 20,
    coordinates := some { lat := some 0, lon := some 73 },
    rawMessage := some "need rescue",
    status := some "Verified", dispatch_status := some "Unassigned" }

/-- A verified, well-formed need with nonzero coordinates. -/
def goodNeed : Need :=
  { emptyNeed with
    _id := 21,
    coordinates := some { lat := some 18, lon := some 73 },
    rawMessage := some "trapped in building",
    status := some "Verified", dispatch_status := some "Unassigned" }

/-- A verified need whose `coordinates` lack the `lon` field, so the
per-item guard skips it every cycle. -/
def badNeed : Need :=
  { emptyNeed with
    _id := 22,
    coordinates := some { lat := some 18, lon := none },
    rawMessage := some "need water",
    status := some "Verified", dispatch_status := some "Unassigned" }

/-- An eligible report re-routed by a human: `dispatch_status` is back to
Pending while an old mission still references it. -/
def pendingReport : Report :=
  { emptyReport with
    _id := 12,
    location := some { lat := some 18, lng := some 73 },
    text := some "fire", status := some "Analyzed",
    dispatch_status := some "Pending",
    oracleData := some { severity := some 9, needs := [] } }

/-- The old mission still referencing `pendingReport`. -/
def pendingMission : Mission :=
  { routes := [], timestamp := 0, report_ids := some [12], need_ids := none,
    source := none, status := "Active", num_vehicles := 1, station := none }

/-- A store where the re-routed Pending report already has a mission, and
the zero-latitude need awaits dispatch. -/
def reRouteStore : Store :=
  { reports := [pendingReport], needs := [zeroLatNeed], missions := [pendingMission] }

/-- A store holding the malformed report followed by the healthy one,
plus the skipped and the healthy need. -/
def mixedStore : Store :=
  { reports := [malformedReport, healthyReport], needs := [badNeed, goodNeed],
    missions := [] }


/-! ## Theorems -/

/-- Every right-hand side of the keyword rule table is one of the four
categories. -/
lemma ruleTable_values : ∀ p ∈ NEED_TO_STATION_MAP, p.2 ∈ stationCategories := by decide

/-- Every right-hand side of the direct need-type table is one of the four
categories. -/
lemma needTypeTable_values : ∀ p ∈ need_type_map, p.2 ∈ stationCategories := by decide

/-- A keyword match always yields one of the four categories. -/
lemma firstRuleMatch_mem_categories {t s : String} (h : firstRuleMatch t = some s) :
    s ∈ stationCategories := by
  unfold firstRuleMatch at h
  cases hf : NEED_TO_STATION_MAP.find? (fun p => strContains t p.1) with
  | none => rw [hf] at h; simp at h
  | some p =>
    rw [hf] at h
    simp only [Option.map_some'] at h
    exact (Option.some.inj h) ▸ ruleTable_values p (List.mem_of_find?_eq_some hf)

/-- Every key of the direct need-type table is itself a keyword of the
rule table. -/
lemma needTypeTable_keys_are_keywords :
    ∀ p ∈ need_type_map, ∃ q ∈ NEED_TO_STATION_MAP, q.1 = p.1 := by decide

/-- A needle whose characters start the haystack is contained in it. -/
lemma strContains_of_data_prefix (hay needle : String) (rest : List Char)
    (h : hay.data = needle.data ++ rest) : strContains hay needle = true := by
  unfold strContains
  rw [decide_eq_true_eq]
  exact ⟨[], rest, by simp [h, String.toList]⟩

/-- If no keyword matches the combined text, the direct need-type lookup
misses as well: every key of that table occurs in the combined text as
soon as it equals the need type, so the keyword scan shadows it. -/
lemma need_type_map_shadowed {combined nt : String}
    (h : firstRuleMatch combined = none) (hc : strContains combined nt = true) :
    need_type_map.find? (fun p => p.1 = nt) = none := by
  cases hf : need_type_map.find? (fun p => decide (p.1 = nt)) with
  | none => rfl
  | some p =>
    exfalso
    have hp : p.1 = nt := by simpa using List.find?_some hf
    have hmem := List.mem_of_find?_eq_some hf
    obtain ⟨q, hq, hq1⟩ := needTypeTable_keys_are_keywords p hmem
    unfold firstRuleMatch at h
    rw [Option.map_eq_none'] at h
    rw [List.find?_eq_none] at h
    apply h q hq
    rw [hq1, hp]
    exact hc

/-- C3 counterexample: a manual reroute override of type `ambulance` makes
`determine_station_type` return a value outside the four-category set, so
the classifier's output is not always a member of
{police, hospital, fire, rescue}. -/
theorem classifier_override_escapes_categories :
    determine_station_type overrideEscapeReport = "ambulance" ∧
    "ambulance" ∉ stationCategories := by decide

/-- C3 (amended): the classifier is deterministic and total, and when no
manual-reroute override is present its output lies in the four-category
set; with no override and no rule match on any text source the default is
`rescue` (for needs, the direct need-type table cannot fire in that case
because its keys are themselves keywords). -/
theorem classifier_total_amended :
    (∀ r r' : Report, r = r' → determine_station_type r = determine_station_type r') ∧
    (∀ r : Report, overrideType r.rerouted_to_station = none →
      determine_station_type r ∈ stationCategories) ∧
    (∀ n : Need, overrideType n.rerouted_to_station = none →
      determine_station_type_for_need n ∈ stationCategories) ∧
    (∀ r : Report, overrideType r.rerouted_to_station = none →
      firstRuleMatch (pyLower (r.text.getD "")) = none →
      firstRuleMatch (pyLower ((r.sentinelData.bind (fun s => s.tag)).getD "")) = none →
      ((r.oracleData.map (fun o => o.needs)).getD []).findSome?
        (fun n => firstRuleMatch (pyLower n)) = none →
      determine_station_type r = "rescue") ∧
    (∀ n : Need, overrideType n.rerouted_to_station = none →
      firstRuleMatch (pyLower ((n.triageData.bind (fun t => t.needType)).getD "") ++ " " ++
        pyLower (n.rawMessage.getD "") ++ " " ++
        pyLower ((n.triageData.bind (fun t => t.details)).getD "")) = none →
      determine_station_type_for_need n = "rescue") := by
  refine ⟨fun r r' h => by rw [h], ?_, ?_, ?_, ?_⟩
  · intro r hov
    unfold determine_station_type
    rw [hov]
    cases h1 : firstRuleMatch (pyLower (r.text.getD "")) with
    | some st => simp only [h1]; exact firstRuleMatch_mem_categories h1
    | none =>
      simp only [h1]
      cases h2 : firstRuleMatch (pyLower ((r.sentinelData.bind (fun s => s.tag)).getD "")) with
      | some st => simp only [h2]; exact firstRuleMatch_mem_categories h2
      | none =>
        simp only [h2]
        cases h3 : ((r.oracleData.map (fun o => o.needs)).getD []).findSome?
            (fun n => firstRuleMatch (pyLower n)) with
        | some st =>
          simp only [h3]
          obtain ⟨a, _, hfa⟩ := List.exists_of_findSome?_eq_some h3
          exact firstRuleMatch_mem_categories hfa
        | none => simp only [h3]; decide
  · intro n hov
    unfold determine_station_type_for_need
    rw [hov]
    cases h1 : firstRuleMatch (pyLower ((n.triageData.bind (fun t => t.needType)).getD "") ++ " " ++
        pyLower (n.rawMessage.getD "") ++ " " ++
        pyLower ((n.triageData.bind (fun t => t.details)).getD "")) with
    | some st => simp only [h1]; exact firstRuleMatch_mem_categories h1
    | none =>
      simp only [h1]
      cases h2 : (need_type_map.find? (fun p =>
          p.1 = pyLower ((n.triageData.bind (fun t => t.needType)).getD ""))).map
          (fun p => p.2) with
      | some st =>
        simp only [h2]
        cases hf : need_type_map.find? (fun p =>
            p.1 = pyLower ((n.triageData.bind (fun t => t.needType)).getD "")) with
        | none => rw [hf] at h2; simp at h2
        | some p =>
          rw [hf] at h2
          simp only [Option.map_some'] at h2
          exact (Option.some.inj h2) ▸ needTypeTable_values p (List.mem_of_find?_eq_some hf)
      | none => simp only [h2]; decide
  · intro r hov h1 h2 h3
    unfold determine_station_type
    rw [hov]
    simp only [h1, h2, h3]
  · intro n hov h1
    unfold determine_station_type_for_need
    rw [hov]
    simp only [h1]
    have hc : strContains
        (pyLower ((n.triageData.bind (fun t => t.needType)).getD "") ++ " " ++
          pyLower (n.rawMessage.getD "") ++ " " ++
          pyLower ((n.triageData.bind (fun t => t.details)).getD ""))
        (pyLower ((n.triageData.bind (fun t => t.needType)).getD "")) = true := by
      apply strContains_of_data_prefix _ _
        (" ".data ++ (pyLower (n.rawMessage.getD "")).data ++ " ".data ++
          (pyLower ((n.triageData.bind (fun t => t.details)).getD "")).data)
      simp [String.data_append]
    rw [need_type_map_shadowed h1 hc]
    rfl

/-- C3 witness: the amended theorem applied to concrete inputs. -/
theorem classifier_total_amended_witness :
    determine_station_type emptyReport ∈ stationCategories ∧
    determine_station_type_for_need emptyNeed ∈ stationCategories ∧
    determine_station_type emptyReport = "rescue" ∧
    determine_station_type_for_need emptyNeed = "rescue" :=
  ⟨classifier_total_amended.2.1 emptyReport (by decide),
   classifier_total_amended.2.2.1 emptyNeed (by decide),
   classifier_total_amended.2.2.2.1 emptyReport (by decide) (by decide) (by decide) (by decide),
   classifier_total_amended.2.2.2.2 emptyNeed (by decide) (by decide)⟩

/-- C4: with no override the classifier equals the spec's ordered-source
first-match scan (free text, then AI tag, then the needs array), and on
the pinned regression input — text containing both `stampede` and
`medical` — the stampede rule wins, giving `police`. -/
theorem classifier_priority_order :
    (∀ r : Report, overrideType r.rerouted_to_station = none →
      determine_station_type r =
        classifierSpec (pyLower (r.text.getD "") ::
          pyLower ((r.sentinelData.bind (fun s => s.tag)).getD "") ::
          ((r.oracleData.map (fun o => o.needs)).getD []).map pyLower)) ∧
    (strContains (pyLower (stampedeReport.text.getD "")) "stampede" = true ∧
     strContains (pyLower (stampedeReport.text.getD "")) "medical" = true ∧
     determine_station_type stampedeReport = "police") := by
  constructor
  · intro r hov
    unfold determine_station_type classifierSpec
    rw [hov]
    rw [List.findSome?_cons, List.findSome?_cons]
    cases h1 : firstRuleMatch (pyLower (r.text.getD "")) with
    | some st => simp only [h1]; rfl
    | none =>
      simp only [h1]
      cases h2 : firstRuleMatch (pyLower ((r.sentinelData.bind (fun s => s.tag)).getD "")) with
      | some st => simp only [h2]; rfl
      | none =>
        simp only [h2]
        rw [List.findSome?_map]
        simp only [Function.comp_def]
        cases h3 : ((r.oracleData.map (fun o => o.needs)).getD []).findSome?
            (fun n => firstRuleMatch (pyLower n)) with
        | some st => simp only [h3]; rfl
        | none => simp only [h3]; rfl
  · decide

/-- C4 witness: the refinement equation instantiated at the pinned
regression report. -/
theorem classifier_priority_order_witness :
    determine_station_type stampedeReport =
      classifierSpec (pyLower (stampedeReport.text.getD "") ::
        pyLower ((stampedeReport.sentinelData.bind (fun s => s.tag)).getD "") ::
        ((stampedeReport.oracleData.map (fun o => o.needs)).getD []).map pyLower) :=
  classifier_priority_order.1 stampedeReport (by decide)


/-- C8 counterexample: a report meeting every condition of the claim's
filter (analyzed, not rejected, dispatch status missing) is not selected
by the code's query, because the query additionally requires
`oracleData.severity` to exist and exceed the threshold. -/
theorem eligibility_severity_gap :
    reportEligibleSpec severityGapReport = true ∧
    matchesCriticalQuery severityGapReport = false ∧
    get_critical_reports [severityGapReport] = [] := by decide

/-- C8 (amended): the reports query is the claim's filter conjoined with
the severity clause, and the needs query is the claim's filter conjoined
with the coordinate-presence clause; nothing else narrows eligibility. -/
theorem eligibility_query_characterization :
    (∀ r : Report, matchesCriticalQuery r = (reportEligibleSpec r && severityClause r)) ∧
    (∀ n : Need, matchesVerifiedNeedsQuery n = (needEligibleSpec n && needCoordsClause n)) := by
  constructor
  · intro r
    unfold matchesCriticalQuery reportEligibleSpec severityClause
    rw [Bool.eq_iff_iff]
    cases hs : r.status with
    | none => simp
    | some s =>
      cases he : r.emergencyStatus with
      | none =>
        cases ho : r.oracleData.bind (fun o => o.severity) <;>
          simp [List.contains_cons, hs, he]
        all_goals tauto
      | some e =>
        cases ho : r.oracleData.bind (fun o => o.severity) <;>
          simp [List.contains_cons, hs, he]
        all_goals tauto
  · intro n
    unfold matchesVerifiedNeedsQuery needEligibleSpec needCoordsClause
    rw [Bool.eq_iff_iff]
    cases he : n.emergencyStatus <;>
      simp [List.contains_cons, he] <;> tauto


/-- One scan step either keeps the accumulator or selects the current
station, and it only selects stations with both coordinates present. -/
lemma scanStep_cases (la ln : ℚ) (acc : Option (Station × ℝ)) (s : Station) :
    scanStep la ln acc s = acc ∨
    ∃ d, scanStep la ln acc s = some (s, d) ∧ s.lat.isSome ∧ s.lon.isSome := by
  cases hl : s.lat with
  | none => left; unfold scanStep; rw [hl]
  | some slat =>
    cases ho : s.lon with
    | none => left; unfold scanStep; rw [hl, ho]
    | some slon =>
      cases acc with
      | none =>
        right
        refine ⟨haversine (la : ℝ) (ln : ℝ) (slat : ℝ) (slon : ℝ), ?_, rfl, rfl⟩
        unfold scanStep
        rw [hl, ho]
      | some nm =>
        by_cases hlt : haversine (la : ℝ) (ln : ℝ) (slat : ℝ) (slon : ℝ) < nm.2
        · right
          refine ⟨haversine (la : ℝ) (ln : ℝ) (slat : ℝ) (slon : ℝ), ?_, rfl, rfl⟩
          unfold scanStep
          rw [hl, ho]
          simp only [hlt, if_true]
        · left
          unfold scanStep
          rw [hl, ho]
          simp only [hlt, if_false]

/-- A station selected by the scan came from the accumulator or the list. -/
lemma scan_mem (la ln : ℚ) :
    ∀ (l : List Station) (acc : Option (Station × ℝ)) (n : Station) (d : ℝ),
      l.foldl (scanStep la ln) acc = some (n, d) → acc = some (n, d) ∨ n ∈ l := by
  intro l
  induction l with
  | nil => intro acc n d h; exact Or.inl h
  | cons s t ih =>
    intro acc n d h
    rw [List.foldl_cons] at h
    rcases ih _ _ _ h with hacc | hmem
    · rcases scanStep_cases la ln acc s with he | ⟨d', he, _, _⟩
      · left; rw [← he]; exact hacc
      · right
        rw [he] at hacc
        cases hacc
        exact List.mem_cons_self s t
    · right; exact List.mem_cons_of_mem s hmem

/-- The scan step never discards a present accumulator. -/
lemma scanStep_isSome (la ln : ℚ) (acc : Option (Station × ℝ)) (s : Station)
    (h : acc.isSome) : (scanStep la ln acc s).isSome := by
  rcases scanStep_cases la ln acc s with he | ⟨d, he, _, _⟩
  · rw [he]; exact h
  · rw [he]; rfl

/-- A station with both coordinates present forces the scan step to hold
some candidate. -/
lemma scanStep_isSome_of_coords (la ln : ℚ) (acc : Option (Station × ℝ)) (s : Station)
    (hla : s.lat.isSome) (hlo : s.lon.isSome) : (scanStep la ln acc s).isSome := by
  cases hl : s.lat with
  | none => rw [hl] at hla; cases hla
  | some slat =>
    cases ho : s.lon with
    | none => rw [ho] at hlo; cases hlo
    | some slon =>
      unfold scanStep
      rw [hl, ho]
      cases acc with
      | none => rfl
      | some nm =>
        by_cases hlt : haversine (la : ℝ) (ln : ℝ) (slat : ℝ) (slon : ℝ) < nm.2 <;>
          simp [hlt]

/-- The scan yields a candidate whenever the accumulator holds one or some
station in the list has both coordinates. -/
lemma scan_isSome (la ln : ℚ) :
    ∀ (l : List Station) (acc : Option (Station × ℝ)),
      (acc.isSome = true ∨ ∃ s ∈ l, s.lat.isSome ∧ s.lon.isSome) →
      (l.foldl (scanStep la ln) acc).isSome := by
  intro l
  induction l with
  | nil =>
    intro acc h
    rcases h with h | ⟨s, hs, _⟩
    · exact h
    · cases hs
  | cons s t ih =>
    intro acc h
    rw [List.foldl_cons]
    rcases h with h | ⟨s', hs', hc'⟩
    · exact ih _ (Or.inl (scanStep_isSome la ln acc s h))
    · rcases List.mem_cons.mp hs' with rfl | hmem
      · exact ih _ (Or.inl (scanStep_isSome_of_coords la ln acc s' hc'.1 hc'.2))
      · exact ih _ (Or.inr ⟨s', hmem, hc'⟩)

/-- Any candidate the scan produces has both coordinates present, as long
as the starting accumulator does. -/
lemma scan_coords (la ln : ℚ) :
    ∀ (l : List Station) (acc : Option (Station × ℝ)) (n : Station) (d : ℝ),
      (∀ n' d', acc = some (n', d') → n'.lat.isSome ∧ n'.lon.isSome) →
      l.foldl (scanStep la ln) acc = some (n, d) → n.lat.isSome ∧ n.lon.isSome := by
  intro l
  induction l with
  | nil => intro acc n d hacc h; exact hacc n d h
  | cons s t ih =>
    intro acc n d hacc h
    rw [List.foldl_cons] at h
    refine ih _ _ _ ?_ h
    intro n' d' he
    rcases scanStep_cases la ln acc s with hk | ⟨d'', hk, hcl, hco⟩
    · rw [hk] at he; exact hacc n' d' he
    · rw [hk] at he
      cases he
      exact ⟨hcl, hco⟩

/-- If every station of the list misses a coordinate the scan returns the
unchanged accumulator. -/
lemma scan_skips_coordless (la ln : ℚ) :
    ∀ (l : List Station) (acc : Option (Station × ℝ)),
      (∀ s ∈ l, s.lat = none ∨ s.lon = none) →
      l.foldl (scanStep la ln) acc = acc := by
  intro l
  induction l with
  | nil => intro acc _; rfl
  | cons s t ih =>
    intro acc h
    rw [List.foldl_cons]
    have hstep : scanStep la ln acc s = acc := by
      rcases h s (List.mem_cons_self s t) with hl | ho
      · unfold scanStep; rw [hl]
      · unfold scanStep
        cases hl : s.lat with
        | none => rfl
        | some _ => rw [ho]
    rw [hstep]
    exact ih _ (fun s' hs' => h s' (List.mem_cons_of_mem s hs'))

/-- C5: with no active station of the requested category,
`get_nearest_station` answers from the fixed fallback chain
(hospital → ambulance, rescue; fire → rescue; police → rescue;
rescue → fire, hospital, police): the default depot when the whole chain
is empty, else a station of the first non-empty fallback category.  The
function is total, so station absence never blocks dispatch. -/
theorem nearest_station_fallback (m : RegisteredStations) (la ln : ℚ) (t : String)
    (hreq : dictGetStations m t = []) :
    (fallback_types "hospital" = ["ambulance", "rescue"] ∧
     fallback_types "fire" = ["rescue"] ∧
     fallback_types "police" = ["rescue"] ∧
     fallback_types "rescue" = ["fire", "hospital", "police"]) ∧
    (fallbackStations m t = [] → get_nearest_station m la ln t = DEFAULT_DEPOT) ∧
    (∀ fb, (fallback_types t).find? (fun x => !(dictGetStations m x).isEmpty) = some fb →
      (∀ s ∈ dictGetStations m fb, s.lat.isSome ∧ s.lon.isSome) →
      get_nearest_station m la ln t ∈ dictGetStations m fb) := by
  have hres : resolvedStations m t = fallbackStations m t := by
    unfold resolvedStations
    rw [hreq]
    rfl
  refine ⟨⟨rfl, rfl, rfl, rfl⟩, ?_, ?_⟩
  · intro hfb
    unfold get_nearest_station
    rw [hres, hfb]
    rfl
  · intro fb hfind hcoords
    have hfbs : fallbackStations m t = dictGetStations m fb := by
      unfold fallbackStations
      rw [hfind]
    have hne : dictGetStations m fb ≠ [] := by
      have := List.find?_some hfind
      intro hnil
      rw [hnil] at this
      simp at this
    have hne' : ¬((dictGetStations m fb).isEmpty = true) := by
      cases hl : dictGetStations m fb with
      | nil => exact absurd hl hne
      | cons a l => simp
    unfold get_nearest_station
    rw [hres, hfbs, if_neg hne']
    have hsome : ((dictGetStations m fb).foldl (scanStep la ln) none).isSome := by
      apply scan_isSome
      right
      cases hl : dictGetStations m fb with
      | nil => exact absurd hl hne
      | cons a l =>
        exact ⟨a, List.mem_cons_self a l,
          hcoords a (by rw [hl]; exact List.mem_cons_self a l)⟩
    cases hscan : (dictGetStations m fb).foldl (scanStep la ln) none with
    | none => rw [hscan] at hsome; cases hsome
    | some nd =>
      obtain ⟨n, d⟩ := nd
      rcases scan_mem la ln _ _ _ _ hscan with hacc | hmem
      · cases hacc
      · exact hmem

/-- C5 witness: requesting a hospital from a registry holding only an
ambulance post returns that post. -/
theorem nearest_station_fallback_witness :
    dictGetStations ambulanceOnlyRegistry "hospital" = [] ∧
    get_nearest_station ambulanceOnlyRegistry 0 0 "hospital" ∈
      dictGetStations ambulanceOnlyRegistry "ambulance" :=
  ⟨by decide,
   (nearest_station_fallback ambulanceOnlyRegistry 0 0 "hospital" (by decide)).2.2
     "ambulance" (by decide) (by decide)⟩

/-- C10: the nearest-station lookup never returns a station with a
missing coordinate — stations without coordinates are skipped during
scoring, and if every station of the resolved category lacks them the
fixed default depot is returned. -/
theorem nearest_station_never_coordless (m : RegisteredStations) (la ln : ℚ) (t : String) :
    ((get_nearest_station m la ln t).lat.isSome ∧
     (get_nearest_station m la ln t).lon.isSome) ∧
    ((∀ s ∈ resolvedStations m t, s.lat = none ∨ s.lon = none) →
      get_nearest_station m la ln t = DEFAULT_DEPOT) := by
  constructor
  · unfold get_nearest_station
    by_cases hne : (resolvedStations m t).isEmpty = true
    · rw [if_pos hne]; exact ⟨rfl, rfl⟩
    · rw [if_neg hne]
      cases hscan : (resolvedStations m t).foldl (scanStep la ln) none with
      | none => exact ⟨rfl, rfl⟩
      | some nd =>
        obtain ⟨n, d⟩ := nd
        exact scan_coords la ln _ _ _ _ (fun n' d' h => by cases h) hscan
  · intro hall
    unfold get_nearest_station
    by_cases hne : (resolvedStations m t).isEmpty = true
    · rw [if_pos hne]
    · rw [if_neg hne, scan_skips_coordless la ln _ none hall]

/-- C10 witness: a registry whose only fire station lacks coordinates
resolves a fire request to the default depot. -/
theorem nearest_station_never_coordless_witness :
    (∀ s ∈ resolvedStations coordlessFireRegistry "fire", s.lat = none ∨ s.lon = none) ∧
    get_nearest_station coordlessFireRegistry 0 0 "fire" = DEFAULT_DEPOT :=
  ⟨by decide,
   (nearest_station_never_coordless coordlessFireRegistry 0 0 "fire").2 (by decide)⟩


/-- C6: any routing failure — timeout, transport error, malformed body,
non-Ok code or empty route list — yields no OSRM route, and the provider
falls back to the straight-line route: geometry exactly
`[origin, destination]`, total distance the haversine great-circle
distance, duration that distance over the assumed 13.89 m/s (≈50 km/h),
and not road-snapped.  The fallback is a total function of its inputs, so
it never raises. -/
theorem route_fallback_properties (origin destination : ℚ × ℚ) (st : String)
    (sn : Option String) (outcome : OsrmOutcome)
    (hfail : isOsrmFailure outcome = true) :
    get_osrm_route [origin, destination] outcome = none ∧
    (get_route_with_fallback origin destination st sn outcome).route = [origin, destination] ∧
    (get_route_with_fallback origin destination st sn outcome).total_distance =
      haversine (origin.1 : ℝ) (origin.2 : ℝ) (destination.1 : ℝ) (destination.2 : ℝ) ∧
    (get_route_with_fallback origin destination st sn outcome).duration =
      haversine (origin.1 : ℝ) (origin.2 : ℝ) (destination.1 : ℝ) (destination.2 : ℝ) / 13.89 ∧
    (get_route_with_fallback origin destination st sn outcome).is_road_snapped = false := by
  have hnone : get_osrm_route [origin, destination] outcome = none := by
    cases outcome with
    | timeout => rfl
    | requestError => rfl
    | parseError => rfl
    | response code routes =>
      unfold isOsrmFailure at hfail
      rcases Bool.or_eq_true_iff.mp hfail with hc | he
      · simp [get_osrm_route, of_decide_eq_true hc]
      · have hr : routes = [] := by
          cases routes with
          | nil => rfl
          | cons a l => simp at he
        subst hr
        simp [get_osrm_route]
  refine ⟨hnone, ?_, ?_, ?_, ?_⟩ <;>
    simp only [get_route_with_fallback, hnone]

/-- C6 witness: the fallback route for a simulated timeout between (0,0)
and (0,1). -/
theorem route_fallback_properties_witness :
    isOsrmFailure OsrmOutcome.timeout = true ∧
    (get_route_with_fallback (0, 0) (0, 1) "rescue" none OsrmOutcome.timeout).route =
      [(0, 0), (0, 1)] ∧
    (get_route_with_fallback (0, 0) (0, 1) "rescue" none
      OsrmOutcome.timeout).is_road_snapped = false :=
  ⟨rfl,
   (route_fallback_properties (0, 0) (0, 1) "rescue" none OsrmOutcome.timeout rfl).2.1,
   (route_fallback_properties (0, 0) (0, 1) "rescue" none OsrmOutcome.timeout rfl).2.2.2.2⟩

/-- C7: the great-circle distance vanishes on equal points, is symmetric,
and the distance between (0,0) and (0,1) degrees is ≈111 km — pinned here
between 111.0 km and 111.3 km (its exact value is 6371000·π/180 m
≈ 111194.9 m). -/
theorem haversine_properties :
    (∀ lat lon : ℝ, haversine lat lon lat lon = 0) ∧
    (∀ lat1 lon1 lat2 lon2 : ℝ,
      haversine lat1 lon1 lat2 lon2 = haversine lat2 lon2 lat1 lon1) ∧
    (111000 < haversine 0 0 0 1 ∧ haversine 0 0 0 1 < 111300) := by
  have hr0 : radians 0 = 0 := by unfold radians; ring
  refine ⟨?_, ?_, ?_⟩
  · intro lat lon
    simp only [haversine, sub_self, hr0, zero_div, Real.sin_zero]
    have hA : (0:ℝ) ^ 2 + Real.cos (radians lat) * Real.cos (radians lat) * (0:ℝ) ^ 2 = 0 := by
      ring
    rw [hA, Real.sqrt_zero]
    have h1 : (1:ℝ) - 0 = 1 := by norm_num
    rw [h1, Real.sqrt_one]
    unfold atan2
    rw [if_pos one_pos]
    norm_num [Real.arctan_zero]
  · intro lat1 lon1 lat2 lon2
    simp only [haversine]
    have h1 : ∀ x y : ℝ, Real.sin (radians (x - y) / 2) ^ 2 =
        Real.sin (radians (y - x) / 2) ^ 2 := by
      intro x y
      have hxy : radians (x - y) / 2 = -(radians (y - x) / 2) := by unfold radians; ring
      rw [hxy, Real.sin_neg]
      ring
    have key : Real.sin (radians (lat2 - lat1) / 2) ^ 2 +
        Real.cos (radians lat1) * Real.cos (radians lat2) *
        Real.sin (radians (lon2 - lon1) / 2) ^ 2 =
        Real.sin (radians (lat1 - lat2) / 2) ^ 2 +
        Real.cos (radians lat2) * Real.cos (radians lat1) *
        Real.sin (radians (lon1 - lon2) / 2) ^ 2 := by
      rw [h1 lat2 lat1, h1 lon2 lon1]
      ring
    rw [key]
  · have hval : haversine 0 0 0 1 = 6371000 * (Real.pi / 180) := by
      simp only [haversine]
      have h00 : radians (0 - 0) = 0 := by unfold radians; ring
      have h10 : radians (1 - 0) = Real.pi / 180 := by unfold radians; ring
      rw [h00, h10, hr0]
      have hq : Real.pi / 180 / 2 = Real.pi / 360 := by ring
      rw [zero_div, hq, Real.sin_zero, Real.cos_zero]
      set t := Real.pi / 360 with ht
      have ht_pos : 0 < t := by rw [ht]; positivity
      have ht_lt : t < Real.pi / 2 := by rw [ht]; nlinarith [Real.pi_pos]
      have hsin_nonneg : 0 ≤ Real.sin t :=
        Real.sin_nonneg_of_nonneg_of_le_pi ht_pos.le (by rw [ht]; nlinarith [Real.pi_pos])
      have hcos_pos : 0 < Real.cos t :=
        Real.cos_pos_of_mem_Ioo ⟨by rw [ht]; nlinarith [Real.pi_pos], ht_lt⟩
      have hA : (0:ℝ) ^ 2 + 1 * 1 * Real.sin t ^ 2 = Real.sin t ^ 2 := by ring
      rw [hA, Real.sqrt_sq hsin_nonneg]
      have h1ms : 1 - Real.sin t ^ 2 = Real.cos t ^ 2 := by
        nlinarith [Real.sin_sq_add_cos_sq t]
      rw [h1ms, Real.sqrt_sq hcos_pos.le]
      unfold atan2
      rw [if_pos hcos_pos, ← Real.tan_eq_sin_div_cos,
        Real.arctan_tan (by nlinarith [Real.pi_pos]) ht_lt, ht]
      ring
    constructor
    · rw [hval]; nlinarith [Real.pi_gt_d6]
    · rw [hval]; nlinarith [Real.pi_lt_d6]


/-- The per-item body always submits exactly the processed report's id to
`save_mission`. -/
lemma reportDispatchData_ids {regs : RegisteredStations} {osrm : ℕ → OsrmOutcome}
    {r : Report} {routes : List RouteDict} {ids : List ℕ} {si : StationInfo}
    (h : reportDispatchData regs osrm r = some (routes, ids, si)) : ids = [r._id] := by
  unfold reportDispatchData at h
  cases hl : r.location with
  | none => rw [hl] at h; simp at h
  | some loc =>
    rw [hl] at h
    dsimp only at h
    cases hla : loc.lat with
    | none => rw [hla] at h; simp at h
    | some la =>
      rw [hla] at h
      dsimp only at h
      cases hlg : loc.lng with
      | none => rw [hlg] at h; simp at h
      | some lg =>
        rw [hlg] at h
        simp only [Option.some.injEq, Prod.mk.injEq] at h
        exact h.2.1.symm

/-- A report whose location has both coordinates yields dispatch data. -/
lemma reportDispatchData_some_of_valid (regs : RegisteredStations)
    (osrm : ℕ → OsrmOutcome) (r : Report) (loc : Loc) (la lg : ℚ)
    (hl : r.location = some loc) (hla : loc.lat = some la) (hlg : loc.lng = some lg) :
    ∃ routes si, reportDispatchData regs osrm r = some (routes, [r._id], si) := by
  unfold reportDispatchData
  rw [hl]
  dsimp only
  rw [hla]
  dsimp only
  rw [hlg]
  exact ⟨_, _, rfl⟩

/-- The update step never changes a report's id. -/
lemma applyAssign_id (now mid : ℕ) (si : Option StationInfo) (ids : List ℕ)
    (r : Report) : (applyAssign now mid si ids r)._id = r._id := by
  unfold applyAssign
  split <;> rfl

/-- The update step leaves untargeted reports alone. -/
lemma applyAssign_not_mem (now mid : ℕ) (si : Option StationInfo) (ids : List ℕ)
    (r : Report) (h : ids.contains r._id = false) : applyAssign now mid si ids r = r := by
  unfold applyAssign
  rw [h]
  rfl

/-- The status flip does not touch the missions collection. -/
lemma missionCount_mark (now : ℕ) (db : Store) (ids : List ℕ) (mid : ℕ)
    (si : Option StationInfo) (rid : ℕ) :
    missionCount (mark_assigned now db ids mid si) rid = missionCount db rid := rfl

/-- Looking a report up after the status flip finds the flipped version
of what was there before. -/
lemma findReport_mark (now : ℕ) (db : Store) (ids : List ℕ) (mid : ℕ)
    (si : Option StationInfo) (rid : ℕ) :
    findReport (mark_assigned now db ids mid si) rid =
      (findReport db rid).map (applyAssign now mid si ids) := by
  unfold mark_assigned findReport
  rw [List.find?_map]
  have hp : ((fun r : Report => decide (r._id = rid)) ∘ applyAssign now mid si ids) =
      (fun r : Report => decide (r._id = rid)) := by
    funext r
    simp [Function.comp, applyAssign_id]
  rw [hp]

/-- The mission insert adds one mission referencing exactly the submitted
ids. -/
lemma missionCount_insert (now : ℕ) (db : Store) (routes : List RouteDict)
    (ids : List ℕ) (si : Option StationInfo) (rid : ℕ) :
    missionCount ((insert_mission now db routes ids si).1) rid =
      missionCount db rid + (if ids.contains rid then 1 else 0) := by
  unfold insert_mission missionCount
  rw [List.countP_append]
  simp [List.countP_cons]

/-- The mission insert does not touch the reports collection. -/
lemma findReport_insert (now : ℕ) (db : Store) (routes : List RouteDict)
    (ids : List ℕ) (si : Option StationInfo) (rid : ℕ) :
    findReport ((insert_mission now db routes ids si).1) rid = findReport db rid := rfl

/-- Effect of `save_mission` on the mission count of an id. -/
lemma missionCount_save (now : ℕ) (db : Store) (routes : List RouteDict)
    (ids : List ℕ) (si : Option StationInfo) (rid : ℕ) :
    missionCount ((save_mission now db routes ids si).1) rid =
      missionCount db rid + (if ids.contains rid then 1 else 0) := by
  unfold save_mission
  rw [missionCount_mark, missionCount_insert]

/-- Effect of `save_mission` on a report lookup. -/
lemma findReport_save (now : ℕ) (db : Store) (routes : List RouteDict)
    (ids : List ℕ) (si : Option StationInfo) (rid : ℕ) :
    findReport ((save_mission now db routes ids si).1) rid =
      (findReport db rid).map (applyAssign now db.missions.length si ids) := by
  unfold save_mission
  rw [findReport_mark, findReport_insert]
  rfl

/-- A found report carries the id it was looked up by. -/
lemma findReport_id {db : Store} {rid : ℕ} {a : Report}
    (h : findReport db rid = some a) : a._id = rid := by
  unfold findReport at h
  simpa using List.find?_some h

/-- Processing a report with a different id changes neither the mission
count of, nor the stored document for, the other id. -/
lemma processReport_other (regs : RegisteredStations) (osrm : ℕ → OsrmOutcome)
    (now : ℕ) (db : Store) (r : Report) (rid : ℕ) (hne : r._id ≠ rid) :
    missionCount (processReport regs osrm now db r) rid = missionCount db rid ∧
    findReport (processReport regs osrm now db r) rid = findReport db rid := by
  unfold processReport
  cases hd : reportDispatchData regs osrm r with
  | none => exact ⟨rfl, rfl⟩
  | some t =>
    obtain ⟨routes, ids, si⟩ := t
    have hids : ids = [r._id] := reportDispatchData_ids hd
    subst hids
    have hcont : [r._id].contains rid = false := by
      simp only [List.contains_cons, List.contains_nil, Bool.or_false, beq_iff_eq]
      exact decide_eq_false (fun he => hne he.symm)
    constructor
    · rw [missionCount_save, hcont]
      simp
    · rw [findReport_save]
      cases hf : findReport db rid with
      | none => rfl
      | some a =>
        have ha : a._id = rid := findReport_id hf
        simp only [Option.map_some']
        rw [applyAssign_not_mem _ _ _ _ _ (by rw [ha]; exact hcont)]

/-- Processing a well-formed report bumps its mission count by one and
flips its stored document. -/
lemma processReport_self (regs : RegisteredStations) (osrm : ℕ → OsrmOutcome)
    (now : ℕ) (db : Store) (r : Report) (routes : List RouteDict) (si : StationInfo)
    (hd : reportDispatchData regs osrm r = some (routes, [r._id], si)) :
    missionCount (processReport regs osrm now db r) r._id = missionCount db r._id + 1 ∧
    findReport (processReport regs osrm now db r) r._id =
      (findReport db r._id).map (applyAssign now db.missions.length (some si) [r._id]) := by
  unfold processReport
  rw [hd]
  constructor
  · rw [missionCount_save]
    simp [List.contains_cons]
  · rw [findReport_save]

/-- Folding the per-item step over reports none of which carry the given
id leaves that id's mission count and stored document unchanged. -/
lemma runFold_other (regs : RegisteredStations) (osrm : ℕ → OsrmOutcome) (now : ℕ) :
    ∀ (l : List Report) (db : Store) (rid : ℕ),
      (∀ r' ∈ l, r'._id ≠ rid) →
      missionCount (l.foldl (processReport regs osrm now) db) rid = missionCount db rid ∧
      findReport (l.foldl (processReport regs osrm now) db) rid = findReport db rid := by
  intro l
  induction l with
  | nil => intro db rid _; exact ⟨rfl, rfl⟩
  | cons a t ih =>
    intro db rid h
    rw [List.foldl_cons]
    have ha := processReport_other regs osrm now db a rid (h a (List.mem_cons_self a t))
    have ht := ih (processReport regs osrm now db a) rid
      (fun r' hr' => h r' (List.mem_cons_of_mem a hr'))
    exact ⟨ht.1.trans ha.1, ht.2.trans ha.2⟩

/-- Folding the per-item step leaves an id's stored document unchanged
when every report of the list carrying that id fails to produce dispatch
data (skipped or raising items). -/
lemma runFold_failed (regs : RegisteredStations) (osrm : ℕ → OsrmOutcome) (now : ℕ) :
    ∀ (l : List Report) (db : Store) (rid : ℕ),
      (∀ r' ∈ l, r'._id = rid → reportDispatchData regs osrm r' = none) →
      findReport (l.foldl (processReport regs osrm now) db) rid = findReport db rid := by
  intro l
  induction l with
  | nil => intro db rid _; rfl
  | cons a t ih =>
    intro db rid h
    rw [List.foldl_cons]
    have ht := ih (processReport regs osrm now db a) rid
      (fun r' hr' => h r' (List.mem_cons_of_mem a hr'))
    rw [ht]
    by_cases hid : a._id = rid
    · have hnone := h a (List.mem_cons_self a t) hid
      unfold processReport
      rw [hnone]
    · exact (processReport_other regs osrm now db a rid hid).2

/-- Core of the single-cycle guarantee: an eligible report with a valid
location, whose id no other stored report shares and which no mission yet
references, ends the cycle with exactly one mission referencing it and
its document flipped to Assigned with the mission reference and
assigned-station fields set. -/
lemma cycle_core (regs : RegisteredStations) (osrm : ℕ → OsrmOutcome) (now : ℕ)
    (db : Store) (r : Report) (loc : Loc) (la lg : ℚ)
    (hmem : r ∈ db.reports)
    (hnodup : (db.reports.map (fun x => x._id)).Nodup)
    (helig : matchesCriticalQuery r = true)
    (hl : r.location = some loc) (hla : loc.lat = some la) (hlg : loc.lng = some lg)
    (hmc : missionCount db r._id = 0) :
    missionCount (runReportCycle regs osrm now db) r._id = 1 ∧
    ∃ r', findReport (runReportCycle regs osrm now db) r._id = some r' ∧
      r'.dispatch_status = some "Assigned" ∧
      r'.mission_id.isSome ∧ r'.assigned_station.isSome := by
  have hmemL : r ∈ get_critical_reports db.reports := by
    unfold get_critical_reports
    exact List.mem_filter.mpr ⟨hmem, helig⟩
  obtain ⟨l1, l2, hsplit⟩ := List.append_of_mem hmemL
  have hsubL : List.Sublist (get_critical_reports db.reports) db.reports :=
    List.filter_sublist _
  have hndL : ((get_critical_reports db.reports).map (fun x => x._id)).Nodup :=
    (hsubL.map _).nodup hnodup
  rw [hsplit, List.map_append, List.map_cons] at hndL
  rw [List.nodup_append] at hndL
  obtain ⟨hnd1, hndc, hdisj⟩ := hndL
  rw [List.nodup_cons] at hndc
  have hnotin2 : r._id ∉ l2.map (fun x => x._id) := hndc.1
  have hnotin1 : r._id ∉ l1.map (fun x => x._id) :=
    fun hmem1 => (List.disjoint_left.mp hdisj hmem1) (List.mem_cons_self _ _)
  have h1 : ∀ r' ∈ l1, r'._id ≠ r._id :=
    fun r' hr' he => hnotin1 (List.mem_map.mpr ⟨r', hr', he⟩)
  have h2 : ∀ r' ∈ l2, r'._id ≠ r._id :=
    fun r' hr' he => hnotin2 (List.mem_map.mpr ⟨r', hr', he⟩)
  unfold runReportCycle
  rw [hsplit, List.foldl_append, List.foldl_cons]
  have hf1 := runFold_other regs osrm now l1 db r._id h1
  obtain ⟨routes, si, hd⟩ := reportDispatchData_some_of_valid regs osrm r loc la lg hl hla hlg
  have hself := processReport_self regs osrm now (l1.foldl (processReport regs osrm now) db)
    r routes si hd
  have hf2 := runFold_other regs osrm now l2
    (processReport regs osrm now (l1.foldl (processReport regs osrm now) db) r) r._id h2
  constructor
  · rw [hf2.1, hself.1, hf1.1, hmc]
  · rw [hf2.2, hself.2, hf1.2]
    have hsome : (findReport db r._id).isSome := by
      unfold findReport
      rw [List.find?_isSome]
      exact ⟨r, hmem, by simp⟩
    obtain ⟨a, hfa⟩ := Option.isSome_iff_exists.mp hsome
    rw [hfa]
    have ha : a._id = r._id := findReport_id hfa
    simp only [Option.map_some']
    refine ⟨_, rfl, ?_⟩
    have hcont : [r._id].contains a._id = true := by
      rw [ha]
      simp [List.contains_cons]
    unfold applyAssign
    rw [hcont]
    simp

/-- The per-need body always submits exactly the processed need's id to
`save_need_mission`. -/
lemma needDispatchData_ids {regs : RegisteredStations} {osrm : ℕ → OsrmOutcome}
    {n : Need} {routes : List RouteDict} {ids : List ℕ} {si : StationInfo}
    (h : needDispatchData regs osrm n = some (routes, ids, si)) : ids = [n._id] := by
  unfold needDispatchData at h
  cases hla : n.coordinates.bind (fun c => c.lat) with
  | none => rw [hla] at h; simp at h
  | some la =>
    rw [hla] at h
    dsimp only at h
    cases hlo : n.coordinates.bind (fun c => c.lon) with
    | none => rw [hlo] at h; simp at h
    | some lo =>
      rw [hlo] at h
      dsimp only at h
      by_cases h0 : la = 0 ∨ lo = 0
      · rw [if_pos h0] at h; simp at h
      · rw [if_neg h0] at h
        simp only [Option.some.injEq, Prod.mk.injEq] at h
        exact h.2.1.symm

/-- A need whose coordinates are present and nonzero yields dispatch
data. -/
lemma needDispatchData_some_of_valid (regs : RegisteredStations)
    (osrm : ℕ → OsrmOutcome) (n : Need) (coords : NeedCoords) (la lo : ℚ)
    (hc : n.coordinates = some coords) (hla : coords.lat = some la)
    (hlo : coords.lon = some lo) (hla0 : la ≠ 0) (hlo0 : lo ≠ 0) :
    ∃ routes si, needDispatchData regs osrm n = some (routes, [n._id], si) := by
  unfold needDispatchData
  rw [show n.coordinates.bind (fun c => c.lat) = some la by rw [hc]; exact hla]
  dsimp only
  rw [show n.coordinates.bind (fun c => c.lon) = some lo by rw [hc]; exact hlo]
  dsimp only
  rw [if_neg (by push_neg; exact ⟨hla0, hlo0⟩)]
  exact ⟨_, _, rfl⟩

/-- The needs update step never changes a need's id. -/
lemma applyAssignNeed_id (now mid : ℕ) (si : Option StationInfo) (ids : List ℕ)
    (n : Need) : (applyAssignNeed now mid si ids n)._id = n._id := by
  unfold applyAssignNeed
  split <;> rfl

/-- The needs update step leaves untargeted needs alone. -/
lemma applyAssignNeed_not_mem (now mid : ℕ) (si : Option StationInfo) (ids : List ℕ)
    (n : Need) (h : ids.contains n._id = false) : applyAssignNeed now mid si ids n = n := by
  unfold applyAssignNeed
  rw [h]
  rfl

/-- The needs status flip does not touch the missions collection. -/
lemma needMissionCount_markN (now : ℕ) (db : Store) (ids : List ℕ) (mid : ℕ)
    (si : Option StationInfo) (nid : ℕ) :
    needMissionCount (mark_needs_assigned now db ids mid si) nid =
      needMissionCount db nid := rfl

/-- Looking a need up after the status flip finds the flipped version of
what was there before. -/
lemma findNeed_markN (now : ℕ) (db : Store) (ids : List ℕ) (mid : ℕ)
    (si : Option StationInfo) (nid : ℕ) :
    findNeed (mark_needs_assigned now db ids mid si) nid =
      (findNeed db nid).map (applyAssignNeed now mid si ids) := by
  unfold mark_needs_assigned findNeed
  rw [List.find?_map]
  have hp : ((fun n : Need => decide (n._id = nid)) ∘ applyAssignNeed now mid si ids) =
      (fun n : Need => decide (n._id = nid)) := by
    funext n
    simp [Function.comp, applyAssignNeed_id]
  rw [hp]

/-- The need-mission insert adds one mission referencing exactly the
submitted need ids. -/
lemma needMissionCount_insertN (now : ℕ) (db : Store) (routes : List RouteDict)
    (ids : List ℕ) (si : Option StationInfo) (nid : ℕ) :
    needMissionCount ((insert_need_mission now db routes ids si).1) nid =
      needMissionCount db nid + (if ids.contains nid then 1 else 0) := by
  unfold insert_need_mission needMissionCount
  rw [List.countP_append]
  simp [List.countP_cons]

/-- The need-mission insert does not touch the needs collection. -/
lemma findNeed_insertN (now : ℕ) (db : Store) (routes : List RouteDict)
    (ids : List ℕ) (si : Option StationInfo) (nid : ℕ) :
    findNeed ((insert_need_mission now db routes ids si).1) nid = findNeed db nid := rfl

/-- Effect of `save_need_mission` on the need-mission count of an id. -/
lemma needMissionCount_saveN (now : ℕ) (db : Store) (routes : List RouteDict)
    (ids : List ℕ) (si : Option StationInfo) (nid : ℕ) :
    needMissionCount ((save_need_mission now db routes ids si).1) nid =
      needMissionCount db nid + (if ids.contains nid then 1 else 0) := by
  unfold save_need_mission
  rw [needMissionCount_markN, needMissionCount_insertN]

/-- Effect of `save_need_mission` on a need lookup. -/
lemma findNeed_saveN (now : ℕ) (db : Store) (routes : List RouteDict)
    (ids : List ℕ) (si : Option StationInfo) (nid : ℕ) :
    findNeed ((save_need_mission now db routes ids si).1) nid =
      (findNeed db nid).map (applyAssignNeed now db.missions.length si ids) := by
  unfold save_need_mission
  rw [findNeed_markN, findNeed_insertN]
  rfl

/-- A found need carries the id it was looked up by. -/
lemma findNeed_id {db : Store} {nid : ℕ} {a : Need}
    (h : findNeed db nid = some a) : a._id = nid := by
  unfold findNeed at h
  simpa using List.find?_some h

/-- Processing a need with a different id changes neither the
need-mission count of, nor the stored document for, the other id. -/
lemma processNeed_other (regs : RegisteredStations) (osrm : ℕ → OsrmOutcome)
    (now : ℕ) (db : Store) (n : Need) (nid : ℕ) (hne : n._id ≠ nid) :
    needMissionCount (processNeed regs osrm now db n) nid = needMissionCount db nid ∧
    findNeed (processNeed regs osrm now db n) nid = findNeed db nid := by
  unfold processNeed
  cases hd : needDispatchData regs osrm n with
  | none => exact ⟨rfl, rfl⟩
  | some t =>
    obtain ⟨routes, ids, si⟩ := t
    have hids : ids = [n._id] := needDispatchData_ids hd
    subst hids
    have hcont : [n._id].contains nid = false := by
      simp only [List.contains_cons, List.contains_nil, Bool.or_false, beq_iff_eq]
      exact decide_eq_false (fun he => hne he.symm)
    constructor
    · rw [needMissionCount_saveN, hcont]
      simp
    · rw [findNeed_saveN]
      cases hf : findNeed db nid with
      | none => rfl
      | some a =>
        have ha : a._id = nid := findNeed_id hf
        simp only [Option.map_some']
        rw [applyAssignNeed_not_mem _ _ _ _ _ (by rw [ha]; exact hcont)]

/-- Processing a well-formed need bumps its mission count by one and
flips its stored document. -/
lemma processNeed_self (regs : RegisteredStations) (osrm : ℕ → OsrmOutcome)
    (now : ℕ) (db : Store) (n : Need) (routes : List RouteDict) (si : StationInfo)
    (hd : needDispatchData regs osrm n = some (routes, [n._id], si)) :
    needMissionCount (processNeed regs osrm now db n) n._id =
      needMissionCount db n._id + 1 ∧
    findNeed (processNeed regs osrm now db n) n._id =
      (findNeed db n._id).map (applyAssignNeed now db.missions.length (some si) [n._id]) := by
  unfold processNeed
  rw [hd]
  constructor
  · rw [needMissionCount_saveN]
    simp [List.contains_cons]
  · rw [findNeed_saveN]

/-- Folding the per-need step over needs none of which carry the given id
leaves that id's mission count and stored document unchanged. -/
lemma needFold_other (regs : RegisteredStations) (osrm : ℕ → OsrmOutcome) (now : ℕ) :
    ∀ (l : List Need) (db : Store) (nid : ℕ),
      (∀ n' ∈ l, n'._id ≠ nid) →
      needMissionCount (l.foldl (processNeed regs osrm now) db) nid =
        needMissionCount db nid ∧
      findNeed (l.foldl (processNeed regs osrm now) db) nid = findNeed db nid := by
  intro l
  induction l with
  | nil => intro db nid _; exact ⟨rfl, rfl⟩
  | cons a t ih =>
    intro db nid h
    rw [List.foldl_cons]
    have ha := processNeed_other regs osrm now db a nid (h a (List.mem_cons_self a t))
    have ht := ih (processNeed regs osrm now db a) nid
      (fun n' hn' => h n' (List.mem_cons_of_mem a hn'))
    exact ⟨ht.1.trans ha.1, ht.2.trans ha.2⟩

/-- Folding the per-need step leaves an id's stored document unchanged
when every need of the list carrying that id fails to produce dispatch
data. -/
lemma needFold_failed (regs : RegisteredStations) (osrm : ℕ → OsrmOutcome) (now : ℕ) :
    ∀ (l : List Need) (db : Store) (nid : ℕ),
      (∀ n' ∈ l, n'._id = nid → needDispatchData regs osrm n' = none) →
      findNeed (l.foldl (processNeed regs osrm now) db) nid = findNeed db nid := by
  intro l
  induction l with
  | nil => intro db nid _; rfl
  | cons a t ih =>
    intro db nid h
    rw [List.foldl_cons]
    have ht := ih (processNeed regs osrm now db a) nid
      (fun n' hn' => h n' (List.mem_cons_of_mem a hn'))
    rw [ht]
    by_cases hid : a._id = nid
    · have hnone := h a (List.mem_cons_self a t) hid
      unfold processNeed
      rw [hnone]
    · exact (processNeed_other regs osrm now db a nid hid).2

/-- The reports loop body neither touches the needs collection nor adds
missions referencing need ids (report missions carry no `need_ids`). -/
lemma processReport_needsSide (regs : RegisteredStations) (osrm : ℕ → OsrmOutcome)
    (now : ℕ) (db : Store) (r : Report) :
    (processReport regs osrm now db r).needs = db.needs ∧
    ∀ nid, needMissionCount (processReport regs osrm now db r) nid =
      needMissionCount db nid := by
  unfold processReport
  cases hd : reportDispatchData regs osrm r with
  | none => exact ⟨rfl, fun _ => rfl⟩
  | some t =>
    obtain ⟨routes, ids, si⟩ := t
    refine ⟨rfl, fun nid => ?_⟩
    unfold save_mission mark_assigned insert_mission needMissionCount
    rw [List.countP_append]
    simp [List.countP_cons]

/-- Fold form of the previous lemma. -/
lemma reportFold_needsSide (regs : RegisteredStations) (osrm : ℕ → OsrmOutcome)
    (now : ℕ) :
    ∀ (l : List Report) (db : Store),
      ((l.foldl (processReport regs osrm now) db).needs = db.needs ∧
       ∀ nid, needMissionCount (l.foldl (processReport regs osrm now) db) nid =
         needMissionCount db nid) := by
  intro l
  induction l with
  | nil => intro db; exact ⟨rfl, fun _ => rfl⟩
  | cons a t ih =>
    intro db
    rw [List.foldl_cons]
    have ha := processReport_needsSide regs osrm now db a
    have ht := ih (processReport regs osrm now db a)
    exact ⟨ht.1.trans ha.1, fun nid => (ht.2 nid).trans (ha.2 nid)⟩

/-- The reports half of the cycle is invisible on the needs side. -/
lemma runReportCycle_needsSide (regs : RegisteredStations) (osrm : ℕ → OsrmOutcome)
    (now : ℕ) (db : Store) :
    (runReportCycle regs osrm now db).needs = db.needs ∧
    ∀ nid, needMissionCount (runReportCycle regs osrm now db) nid =
      needMissionCount db nid :=
  reportFold_needsSide regs osrm now (get_critical_reports db.reports) db

/-- The needs loop body neither touches the reports collection nor adds
missions referencing report ids (need missions carry no `report_ids`). -/
lemma processNeed_reportsSide (regs : RegisteredStations) (osrm : ℕ → OsrmOutcome)
    (now : ℕ) (db : Store) (n : Need) :
    (processNeed regs osrm now db n).reports = db.reports ∧
    ∀ rid, missionCount (processNeed regs osrm now db n) rid = missionCount db rid := by
  unfold processNeed
  cases hd : needDispatchData regs osrm n with
  | none => exact ⟨rfl, fun _ => rfl⟩
  | some t =>
    obtain ⟨routes, ids, si⟩ := t
    refine ⟨rfl, fun rid => ?_⟩
    unfold save_need_mission mark_needs_assigned insert_need_mission missionCount
    rw [List.countP_append]
    simp [List.countP_cons]

/-- Fold form of the previous lemma. -/
lemma needFold_reportsSide (regs : RegisteredStations) (osrm : ℕ → OsrmOutcome)
    (now : ℕ) :
    ∀ (l : List Need) (db : Store),
      ((l.foldl (processNeed regs osrm now) db).reports = db.reports ∧
       ∀ rid, missionCount (l.foldl (processNeed regs osrm now) db) rid =
         missionCount db rid) := by
  intro l
  induction l with
  | nil => intro db; exact ⟨rfl, fun _ => rfl⟩
  | cons a t ih =>
    intro db
    rw [List.foldl_cons]
    have ha := processNeed_reportsSide regs osrm now db a
    have ht := ih (processNeed regs osrm now db a)
    exact ⟨ht.1.trans ha.1, fun rid => (ht.2 rid).trans (ha.2 rid)⟩

/-- The needs half of the cycle is invisible on the reports side. -/
lemma runNeedCycle_reportsSide (regs : RegisteredStations) (osrm : ℕ → OsrmOutcome)
    (now : ℕ) (db : Store) :
    (runNeedCycle regs osrm now db).reports = db.reports ∧
    ∀ rid, missionCount (runNeedCycle regs osrm now db) rid = missionCount db rid :=
  needFold_reportsSide regs osrm now (get_verified_needs db.needs) db

/-- Core of the single-cycle guarantee for needs: an eligible need with
present, nonzero coordinates, whose id no other stored need shares and
which no mission yet references, ends the needs half of the cycle with
exactly one mission referencing it and its document flipped to Assigned
and InProgress with the mission-reference and assigned-station fields
set. -/
lemma cycle_core_needs (regs : RegisteredStations) (osrm : ℕ → OsrmOutcome) (now : ℕ)
    (db : Store) (n : Need) (coords : NeedCoords) (la lo : ℚ)
    (hmem : n ∈ db.needs)
    (hnodup : (db.needs.map (fun x => x._id)).Nodup)
    (helig : matchesVerifiedNeedsQuery n = true)
    (hc : n.coordinates = some coords) (hla : coords.lat = some la)
    (hlo : coords.lon = some lo) (hla0 : la ≠ 0) (hlo0 : lo ≠ 0)
    (hmc : needMissionCount db n._id = 0) :
    needMissionCount (runNeedCycle regs osrm now db) n._id = 1 ∧
    ∃ n', findNeed (runNeedCycle regs osrm now db) n._id = some n' ∧
      n'.dispatch_status = some "Assigned" ∧ n'.status = some "InProgress" ∧
      n'.mission_id.isSome ∧ n'.assigned_station.isSome := by
  have hmemL : n ∈ get_verified_needs db.needs := by
    unfold get_verified_needs
    exact List.mem_filter.mpr ⟨hmem, helig⟩
  obtain ⟨l1, l2, hsplit⟩ := List.append_of_mem hmemL
  have hsubL : List.Sublist (get_verified_needs db.needs) db.needs :=
    List.filter_sublist _
  have hndL : ((get_verified_needs db.needs).map (fun x => x._id)).Nodup :=
    (hsubL.map _).nodup hnodup
  rw [hsplit, List.map_append, List.map_cons] at hndL
  rw [List.nodup_append] at hndL
  obtain ⟨hnd1, hndc, hdisj⟩ := hndL
  rw [List.nodup_cons] at hndc
  have hnotin2 : n._id ∉ l2.map (fun x => x._id) := hndc.1
  have hnotin1 : n._id ∉ l1.map (fun x => x._id) :=
    fun hmem1 => (List.disjoint_left.mp hdisj hmem1) (List.mem_cons_self _ _)
  have h1 : ∀ n' ∈ l1, n'._id ≠ n._id :=
    fun n' hn' he => hnotin1 (List.mem_map.mpr ⟨n', hn', he⟩)
  have h2 : ∀ n' ∈ l2, n'._id ≠ n._id :=
    fun n' hn' he => hnotin2 (List.mem_map.mpr ⟨n', hn', he⟩)
  unfold runNeedCycle
  rw [hsplit, List.foldl_append, List.foldl_cons]
  have hf1 := needFold_other regs osrm now l1 db n._id h1
  obtain ⟨routes, si, hd⟩ :=
    needDispatchData_some_of_valid regs osrm n coords la lo hc hla hlo hla0 hlo0
  have hself := processNeed_self regs osrm now (l1.foldl (processNeed regs osrm now) db)
    n routes si hd
  have hf2 := needFold_other regs osrm now l2
    (processNeed regs osrm now (l1.foldl (processNeed regs osrm now) db) n) n._id h2
  constructor
  · rw [hf2.1, hself.1, hf1.1, hmc]
  · rw [hf2.2, hself.2, hf1.2]
    have hsome : (findNeed db n._id).isSome := by
      unfold findNeed
      rw [List.find?_isSome]
      exact ⟨n, hmem, by simp⟩
    obtain ⟨a, hfa⟩ := Option.isSome_iff_exists.mp hsome
    rw [hfa]
    have ha : a._id = n._id := findNeed_id hfa
    simp only [Option.map_some']
    refine ⟨_, rfl, ?_⟩
    have hcont : [n._id].contains a._id = true := by
      rw [ha]
      simp [List.contains_cons]
    unfold applyAssignNeed
    rw [hcont]
    simp

/-- C2 counterexample: two concrete cycle runs refute the claim as
stated.  A verified need on the equator (latitude 0 — a present, valid
coordinate) is selected by the eligibility query but skipped by the
loop's Python-truthiness guard, so it ends the cycle with no mission and
its `dispatch_status` still Unassigned.  And a report set back to Pending
by a human re-route, with its old mission still referencing it, ends the
cycle with two missions referencing its id, not exactly one. -/
theorem cycle_skips_zero_lat_need_and_doubles_reroute :
    matchesVerifiedNeedsQuery zeroLatNeed = true ∧
    needMissionCount (runCycle [] (fun _ => OsrmOutcome.timeout) 0 reRouteStore)
      zeroLatNeed._id = 0 ∧
    findNeed (runCycle [] (fun _ => OsrmOutcome.timeout) 0 reRouteStore)
      zeroLatNeed._id = some zeroLatNeed ∧
    zeroLatNeed.dispatch_status = some "Unassigned" ∧
    matchesCriticalQuery pendingReport = true ∧
    pendingReport.dispatch_status = some "Pending" ∧
    missionCount reRouteStore pendingReport._id = 1 ∧
    missionCount (runCycle [] (fun _ => OsrmOutcome.timeout) 0 reRouteStore)
      pendingReport._id = 2 :=
  ⟨by decide, by rfl, by rfl, by decide, by decide, by decide, by rfl, by rfl⟩

/-- C2 (amended): an incident — report or verified need — that is
initially Unassigned or Pending (or with the dispatch field missing),
matches the eligibility query, has coordinates that are present and (for
needs) nonzero, and that no mission yet references, ends one error-free
polling cycle (reports loop then needs loop) with exactly one mission
referencing its id, its `dispatch_status` flipped to Assigned (needs also
to InProgress), and the mission-reference and assigned-station fields set
in the same persist sequence. -/
theorem one_cycle_assigns_once :
    (∀ (regs : RegisteredStations) (osrm : ℕ → OsrmOutcome) (now : ℕ) (db : Store)
      (r : Report) (loc : Loc) (la lg : ℚ),
      (r.dispatch_status = none ∨ r.dispatch_status = some "Unassigned" ∨
        r.dispatch_status = some "Pending") →
      r ∈ db.reports →
      (db.reports.map (fun x => x._id)).Nodup →
      matchesCriticalQuery r = true →
      r.location = some loc → loc.lat = some la → loc.lng = some lg →
      missionCount db r._id = 0 →
      missionCount (runCycle regs osrm now db) r._id = 1 ∧
      ∃ r', findReport (runCycle regs osrm now db) r._id = some r' ∧
        r'.dispatch_status = some "Assigned" ∧
        r'.mission_id.isSome ∧ r'.assigned_station.isSome) ∧
    (∀ (regs : RegisteredStations) (osrm : ℕ → OsrmOutcome) (now : ℕ) (db : Store)
      (n : Need) (coords : NeedCoords) (la lo : ℚ),
      (n.dispatch_status = none ∨ n.dispatch_status = some "Unassigned" ∨
        n.dispatch_status = some "Pending") →
      n ∈ db.needs →
      (db.needs.map (fun x => x._id)).Nodup →
      matchesVerifiedNeedsQuery n = true →
      n.coordinates = some coords → coords.lat = some la → coords.lon = some lo →
      la ≠ 0 → lo ≠ 0 →
      needMissionCount db n._id = 0 →
      needMissionCount (runCycle regs osrm now db) n._id = 1 ∧
      ∃ n', findNeed (runCycle regs osrm now db) n._id = some n' ∧
        n'.dispatch_status = some "Assigned" ∧ n'.status = some "InProgress" ∧
        n'.mission_id.isSome ∧ n'.assigned_station.isSome) := by
  constructor
  · intro regs osrm now db r loc la lg _hdisp hmem hnodup helig hl hla hlg hmc
    have hcore := cycle_core regs osrm now db r loc la lg hmem hnodup helig hl hla hlg hmc
    have hpres := runNeedCycle_reportsSide regs osrm now (runReportCycle regs osrm now db)
    unfold runCycle
    constructor
    · rw [hpres.2 r._id]
      exact hcore.1
    · obtain ⟨r', hfind, hrest⟩ := hcore.2
      refine ⟨r', ?_, hrest⟩
      have hk : findReport (runNeedCycle regs osrm now (runReportCycle regs osrm now db))
          r._id = findReport (runReportCycle regs osrm now db) r._id := by
        unfold findReport
        rw [hpres.1]
      rw [hk]
      exact hfind
  · intro regs osrm now db n coords la lo _hdisp hmem hnodup helig hc hla hlo hla0 hlo0 hmc
    have hpres := runReportCycle_needsSide regs osrm now db
    unfold runCycle
    exact cycle_core_needs regs osrm now (runReportCycle regs osrm now db) n coords la lo
      (by rw [hpres.1]; exact hmem) (by rw [hpres.1]; exact hnodup) helig hc hla hlo
      hla0 hlo0 ((hpres.2 n._id).trans hmc)

/-- C2 witness: one full cycle over a store holding two reports and two
needs assigns the healthy Pending report and the healthy Unassigned need
exactly once each. -/
theorem one_cycle_assigns_once_witness :
    (missionCount (runCycle [] (fun _ => OsrmOutcome.timeout) 0 mixedStore)
      healthyReport._id = 1 ∧
    ∃ r', findReport (runCycle [] (fun _ => OsrmOutcome.timeout) 0 mixedStore)
        healthyReport._id = some r' ∧
      r'.dispatch_status = some "Assigned" ∧
      r'.mission_id.isSome ∧ r'.assigned_station.isSome) ∧
    (needMissionCount (runCycle [] (fun _ => OsrmOutcome.timeout) 0 mixedStore)
      goodNeed._id = 1 ∧
    ∃ n', findNeed (runCycle [] (fun _ => OsrmOutcome.timeout) 0 mixedStore)
        goodNeed._id = some n' ∧
      n'.dispatch_status = some "Assigned" ∧ n'.status = some "InProgress" ∧
      n'.mission_id.isSome ∧ n'.assigned_station.isSome) :=
  ⟨one_cycle_assigns_once.1 [] (fun _ => OsrmOutcome.timeout) 0 mixedStore healthyReport
    { lat := some 18, lng := some 73 } 18 73 (by decide) (by decide) (by decide)
    (by decide) rfl rfl rfl rfl,
   one_cycle_assigns_once.2 [] (fun _ => OsrmOutcome.timeout) 0 mixedStore goodNeed
    { lat := some 18, lon := some 73 } 18 73 (by decide) (by decide) (by decide)
    (by decide) rfl rfl rfl (by decide) (by decide) rfl⟩

/-- C9 (amended): per-item failure isolation, in both loops of the cycle.
An item whose per-item body skips or raises (no dispatch data: the
`KeyError` on a report missing `lng`, or a need failing the coordinate
truthiness guard) is left fully unchanged in the store, while the
remaining items of the same batch are still processed, so a failing item
never aborts the batch.  No failure path marks an item `Error`. -/
theorem per_item_failure_isolation :
    (∀ (regs : RegisteredStations) (osrm : ℕ → OsrmOutcome) (now : ℕ) (db : Store)
      (rbad rgood : Report) (loc : Loc) (la lg : ℚ),
      rbad ∈ db.reports →
      reportDispatchData regs osrm rbad = none →
      (db.reports.map (fun x => x._id)).Nodup →
      rgood ∈ db.reports →
      matchesCriticalQuery rgood = true →
      rgood.location = some loc → loc.lat = some la → loc.lng = some lg →
      missionCount db rgood._id = 0 →
      findReport (runCycle regs osrm now db) rbad._id = findReport db rbad._id ∧
      missionCount (runCycle regs osrm now db) rgood._id = 1) ∧
    (∀ (regs : RegisteredStations) (osrm : ℕ → OsrmOutcome) (now : ℕ) (db : Store)
      (nbad ngood : Need) (coords : NeedCoords) (la lo : ℚ),
      nbad ∈ db.needs →
      needDispatchData regs osrm nbad = none →
      (db.needs.map (fun x => x._id)).Nodup →
      ngood ∈ db.needs →
      matchesVerifiedNeedsQuery ngood = true →
      ngood.coordinates = some coords → coords.lat = some la → coords.lon = some lo →
      la ≠ 0 → lo ≠ 0 →
      needMissionCount db ngood._id = 0 →
      findNeed (runCycle regs osrm now db) nbad._id = findNeed db nbad._id ∧
      needMissionCount (runCycle regs osrm now db) ngood._id = 1) := by
  constructor
  · intro regs osrm now db rbad rgood loc la lg hmemb hbad hnodup hmemg heligg
      hgl hgla hglg hmc
    have hpres := runNeedCycle_reportsSide regs osrm now (runReportCycle regs osrm now db)
    unfold runCycle
    constructor
    · have hk : findReport (runNeedCycle regs osrm now (runReportCycle regs osrm now db))
          rbad._id = findReport (runReportCycle regs osrm now db) rbad._id := by
        unfold findReport
        rw [hpres.1]
      rw [hk]
      unfold runReportCycle
      apply runFold_failed
      intro r' hr' hid
      unfold get_critical_reports at hr'
      have hr'mem : r' ∈ db.reports := List.mem_of_mem_filter hr'
      have heq : r' = rbad := List.inj_on_of_nodup_map hnodup hr'mem hmemb hid
      rw [heq]
      exact hbad
    · rw [hpres.2 rgood._id]
      exact (cycle_core regs osrm now db rgood loc la lg hmemg hnodup heligg
        hgl hgla hglg hmc).1
  · intro regs osrm now db nbad ngood coords la lo hmemb hbad hnodup hmemg heligg
      hc hla hlo hla0 hlo0 hmc
    have hpres := runReportCycle_needsSide regs osrm now db
    unfold runCycle
    constructor
    · have hend : findNeed (runReportCycle regs osrm now db) nbad._id =
          findNeed db nbad._id := by
        unfold findNeed
        rw [hpres.1]
      rw [← hend]
      unfold runNeedCycle
      apply needFold_failed
      intro n' hn' hid
      unfold get_verified_needs at hn'
      have hn'mem : n' ∈ (runReportCycle regs osrm now db).needs :=
        List.mem_of_mem_filter hn'
      rw [hpres.1] at hn'mem
      have heq : n' = nbad := List.inj_on_of_nodup_map hnodup hn'mem hmemb hid
      rw [heq]
      exact hbad
    · exact (cycle_core_needs regs osrm now (runReportCycle regs osrm now db) ngood
        coords la lo (by rw [hpres.1]; exact hmemg) (by rw [hpres.1]; exact hnodup)
        heligg hc hla hlo hla0 hlo0 ((hpres.2 ngood._id).trans hmc)).1

/-- C9 witness: in a cycle over two reports and two needs, the raising
report and the guard-skipped need are unchanged while the healthy report
and need are both dispatched. -/
theorem per_item_failure_isolation_witness :
    (findReport (runCycle [] (fun _ => OsrmOutcome.timeout) 0 mixedStore)
      malformedReport._id = findReport mixedStore malformedReport._id ∧
    missionCount (runCycle [] (fun _ => OsrmOutcome.timeout) 0 mixedStore)
      healthyReport._id = 1) ∧
    (findNeed (runCycle [] (fun _ => OsrmOutcome.timeout) 0 mixedStore)
      badNeed._id = findNeed mixedStore badNeed._id ∧
    needMissionCount (runCycle [] (fun _ => OsrmOutcome.timeout) 0 mixedStore)
      goodNeed._id = 1) :=
  ⟨per_item_failure_isolation.1 [] (fun _ => OsrmOutcome.timeout) 0 mixedStore
    malformedReport healthyReport { lat := some 18, lng := some 73 } 18 73
    (by decide) rfl (by decide) (by decide) (by decide) rfl rfl rfl rfl,
   per_item_failure_isolation.2 [] (fun _ => OsrmOutcome.timeout) 0 mixedStore
    badNeed goodNeed { lat := some 18, lon := some 73 } 18 73
    (by decide) rfl (by decide) (by decide) (by decide) rfl rfl rfl
    (by decide) (by decide) rfl⟩

/-- C9 counterexample: a permanently malformed item (its `location` has a
`lat` but no `lng`, so every cycle raises `KeyError` on it) is never
marked `Error`: after a full cycle its document is untouched — status
still `Analyzed`, not `Error` — and it still matches the polling query,
so it is not excluded from further polling. -/
theorem malformed_item_not_marked_error :
    findReport (runReportCycle [] (fun _ => OsrmOutcome.timeout) 0 malformedStore)
      malformedReport._id = some malformedReport ∧
    malformedReport.status = some "Analyzed" ∧
    malformedReport.status ≠ some "Error" ∧
    matchesCriticalQuery malformedReport = true :=
  ⟨rfl, rfl, by decide, by decide⟩

/-- C1: the coordinator has no compare-and-set claim step — the
eligibility query, the mission insert and the status flip are three
separate store operations, and the outbound OSRM call happens before any
store write.  Two instances interleaved over one Unassigned report (both
query before either writes; each then inserts its mission and flips the
status) end with two missions referencing the same incident id. -/
theorem double_dispatch_race :
    matchesCriticalQuery raceReport = true ∧
    raceReport.dispatch_status = some "Unassigned" ∧
    missionCount raceStore raceReport._id = 0 ∧
    missionCount
      (runSchedule [] (fun _ => OsrmOutcome.timeout) 0 raceSchedule
        (AgentState.ready, AgentState.ready, raceStore)).2.2 raceReport._id = 2 :=
  ⟨by decide, by decide, rfl, by rfl⟩


end LogisticsAgent
